import Mathlib

/-!
Verification of the VirtualBox machine driver: VM lifecycle state machine,
host-only network and DHCP provisioning, port forwarding and output parsing.

The driver is embedded shallowly. Pure helpers become Lean functions.
Every interaction with the outside world (the hypervisor CLI, collaborator
interfaces such as the ISO updater, log reader, IP waiter, random source,
and the socket API) is answered by an oracle indexed by a global call
counter, and every interaction is recorded in a trace. Driver operations
are functions from the call counter to a result, the next counter value,
and the list of recorded events.
-/

namespace VBoxDriver

/-- An IPv4 address, four octets. Go net.IP values used by the driver are
always four-octet addresses (the driver only handles IPv4 host-only
networks), so the To4 conversions of the source are identities here. -/
structure IPv4 where
  o0 : Nat
  o1 : Nat
  o2 : Nat
  o3 : Nat
deriving DecidableEq, Repr

/-- A network, an address together with a mask, mirroring Go net.IPNet. -/
structure IPNet where
  ip : IPv4
  mask : IPv4
deriving DecidableEq, Repr

/-- Modelled from the spec: a host-only adapter is identified by an adapter
name assigned by the hypervisor and carries an IPv4 address and subnet mask
(the hostOnlyNetwork struct lives in a repository file that is not under
src, only its use sites are). -/
structure HostOnlyNetwork where
  name : String
  ipv4 : IPNet
deriving DecidableEq, Repr

/-- The DHCP server configuration built by setupHostOnlyNetwork, mirroring
the fields of the dhcpServer struct that the source assigns: IPv4 address
and mask, lower and upper lease bounds, and the enabled flag. -/
structure DhcpServer where
  ipv4 : IPNet
  lowerIP : IPv4
  upperIP : IPv4
  enabled : Bool
deriving DecidableEq, Repr

/-- The VM state enumeration of libmachine (state.State). -/
inductive VMState where
  | none
  | running
  | paused
  | saved
  | stopped
  | stopping
  | starting
  | error
deriving DecidableEq, Repr

/-- Errors returned by driver operations. CLI failures carry the stderr of
the failed command; wrap mirrors fmt.Errorf wrapping of an inner error. -/
inductive GoErr where
  | cli (stderr : String)
  | machineNotExist
  | mustEnableVTX
  | networkAddrCidr
  | invalidCIDR
  | unableToGenerateRandomIP
  | allocatePortFailed
  | atoiFailed
  | fileNotExist
  | fuelExhausted
  | other (msg : String)
  | wrap (msg : String) (inner : GoErr)
deriving DecidableEq, Repr

/-- The outcome of one hypervisor CLI invocation: exit status, captured
stdout and stderr. -/
structure CmdResult where
  ok : Bool
  stdout : String
  stderr : String
deriving DecidableEq, Repr

/-- The outcome of an os.Stat call. -/
inductive StatResult where
  | ok
  | notExist
  | errOther (e : GoErr)
deriving DecidableEq, Repr

/-- One recorded external interaction. cmd is a hypervisor CLI invocation
whose result the caller inspects; cmdIgnored is an invocation whose result
the call site discards (there are exactly two such sites in the source:
the natpf delete in setPortForwarding and the import-VM poweroff in
CreateVM). The remaining constructors record collaborator calls. -/
inductive Entry where
  | cmd (idx : Nat) (args : List String)
  | cmdIgnored (idx : Nat) (args : List String)
  | listIfs (idx : Nat)
  | getOrCreate (idx : Nat) (ip : IPv4) (mask : IPv4)
  | removeOrphans (idx : Nat)
  | addDHCP (idx : Nat) (adapterName : String) (cfg : DhcpServer)
  | saveAdapterIPv4 (idx : Nat) (adapter : HostOnlyNetwork)
  | waitIP (idx : Nat)
  | readLogs (idx : Nat)
  | listen (idx : Nat) (port : Int)
  | randomDraw (idx : Nat) (bound : Nat)
  | sleep (nanos : Nat)
  | copyIsoToMachineDir (idx : Nat)
  | generateSSHKey (idx : Nat)
  | createDiskImage (idx : Nat)
  | statPath (idx : Nat) (path : String)
  | queryVMDiskInfo (idx : Nat) (vmName : String)
  | queryVMInfo (idx : Nat) (vmName : String)
  | copyFile (idx : Nat)
deriving DecidableEq, Repr

/-- The external world: each field answers one kind of external call, as a
function of the global call counter, so that repeated queries may observe
different answers (the hypervisor is the sole source of truth and its
state can change between calls). -/
structure World where
  exec : Nat → CmdResult
  listIfsRes : Nat → Except GoErr (List HostOnlyNetwork)
  getOrCreateRes : Nat → Except GoErr HostOnlyNetwork
  removeOrphansRes : Nat → Except GoErr Unit
  addDHCPRes : Nat → Except GoErr Unit
  saveIPv4Res : Nat → Except GoErr Unit
  waitIPRes : Nat → Except GoErr Unit
  readLogsRes : Nat → Except GoErr (List String)
  listenRes : Nat → Except GoErr String
  randomVal : Nat → Nat
  copyIsoRes : Nat → Except GoErr Unit
  genKeyRes : Nat → Except GoErr Unit
  createDiskRes : Nat → Except GoErr Unit
  statRes : Nat → StatResult
  vmDiskPathRes : Nat → Except GoErr String
  vmInfoRes : Nat → Except GoErr (Int × Int)
  copyFileRes : Nat → Except GoErr Unit
  numCPU : Nat
  shareName0 : String
  shareDir : String

/-- The driver configuration fields that the embedded operations read,
mirroring the Driver struct of the source. -/
structure DriverCfg where
  machineName : String
  storePath : String
  cpu : Int
  memory : Int
  diskSize : Int
  boot2DockerImportVM : String
  hostDNSResolver : Bool
  dnsProxy : Bool
  hostOnlyCIDR : String
  hostOnlyNicType : String
  hostOnlyPromiscMode : String
  noShare : Bool
  sshPort : Int

/-- The default host-only CIDR of the source constants. -/
def defaultHostOnlyCIDR : String := "192.168.99.1/24"

/-- Character class of the Go regexp word class backslash-w with default
flags: ASCII letters, digits and underscore. -/
def wordChar (c : Char) : Bool := c.isAlphanum || c = '_'

/-- Numeric value of a list of decimal digit characters. -/
def digitsVal (l : List Char) : Nat :=
  l.foldl (fun acc c => acc * 10 + (c.toNat - '0'.toNat)) 0

/-- Tests whether the first character list is an initial segment of the
second. -/
def isPreOf : List Char → List Char → Bool
  | [], _ => true
  | _ :: _, [] => false
  | c :: cs, d :: ds => c = d && isPreOf cs ds

/-- Removes the first character list from the front of the second when it
is an initial segment of it. -/
def stripPreList : List Char → List Char → Option (List Char)
  | [], l => some l
  | _ :: _, [] => Option.none
  | c :: cs, d :: ds => if c = d then stripPreList cs ds else Option.none

/-- Splits a character list at every occurrence of a separator character:
the single-character case of strings.Split, which is all the source
uses for splitting. -/
def splitOnChar (c : Char) : List Char → List (List Char)
  | [] => [[]]
  | d :: ds =>
    if d = c then [] :: splitOnChar c ds
    else
      match splitOnChar c ds with
      | [] => [[d]]
      | h :: t => (d :: h) :: t

/-- Substring containment over character lists, embedding strings.Contains
for the fixed nonempty patterns the source scans for. -/
def containsList (pat : List Char) : List Char → Bool
  | [] => isPreOf pat []
  | d :: ds => isPreOf pat (d :: ds) || containsList pat ds

/-- Parses one dotted-quad octet the way the Go IPv4 parser does: a
nonempty run of decimal digits with value at most 255. -/
def parseOctet (l : List Char) : Option Nat :=
  if l = [] then Option.none
  else if l.all Char.isDigit then
    if digitsVal l ≤ 255 then some (digitsVal l) else Option.none
  else Option.none

/-- Parses a dotted-quad IPv4 address, as net.ParseCIDR does for its
address component (the driver only deals in IPv4 host-only networks, so
the embedding covers the IPv4 grammar). -/
def parseIPv4 (l : List Char) : Option IPv4 :=
  match splitOnChar '.' l with
  | [a, b, c, d] =>
    match parseOctet a, parseOctet b, parseOctet c, parseOctet d with
    | some x, some y, some z, some u => some ⟨x, y, z, u⟩
    | _, _, _, _ => Option.none
  | _ => Option.none

/-- Parses the ones-count of a CIDR mask: a nonempty run of decimal digits
with value at most 32, following net.ParseCIDR. -/
def parseMaskOnes (l : List Char) : Option Nat :=
  if l = [] then Option.none
  else if l.all Char.isDigit then
    if digitsVal l ≤ 32 then some (digitsVal l) else Option.none
  else Option.none

/-- One octet of a CIDR mask with the given number of leading one bits
(clamped to eight). -/
def maskOctet (bits : Nat) : Nat := 256 - 2 ^ (8 - min bits 8)

/-- The four-octet mask with n leading one bits, following net.CIDRMask. -/
def cidrMask (n : Nat) : IPv4 :=
  ⟨maskOctet n, maskOctet (n - 8), maskOctet (n - 16), maskOctet (n - 24)⟩

/-- Octetwise application of a mask to an address, following net.IP.Mask. -/
def maskWith (ip m : IPv4) : IPv4 :=
  ⟨ip.o0 &&& m.o0, ip.o1 &&& m.o1, ip.o2 &&& m.o2, ip.o3 &&& m.o3⟩

/-- Embeds net.ParseCIDR on the IPv4 grammar: the string is split at the
slash, the address part is the returned host IP, and the returned network
is the host IP masked by the parsed mask. -/
def parseCIDR (s : String) : Option (IPv4 × IPNet) :=
  match splitOnChar '/' s.data with
  | [addr, maskStr] =>
    match parseIPv4 addr, parseMaskOnes maskStr with
    | some ip, some n => some (ip, ⟨maskWith ip (cidrMask n), cidrMask n⟩)
    | _, _ => Option.none
  | _ => Option.none

/-- Embeds parseAndValidateCIDR of the source: parse failure is an error,
a host IP equal to the network address is rejected with the
network-address-as-host error, anything else is returned as parsed. -/
def parseAndValidateCIDR (s : String) : Except GoErr (IPv4 × IPNet) :=
  match parseCIDR s with
  | Option.none => Except.error GoErr.invalidCIDR
  | some (ip, network) =>
    if ip = network.ip then Except.error GoErr.networkAddrCidr
    else Except.ok (ip, network)

/-- Extracts the quoted VMState token from one line, following the regexp
of GetState anchored at line start: the literal text VMState equals-quote,
then a nonempty greedy run of word characters, then a closing quote. -/
def lineVMStateToken (line : List Char) : Option (List Char) :=
  match stripPreList ("VMState=\"".data) line with
  | Option.none => Option.none
  | some rest =>
    let tok := rest.takeWhile wordChar
    if tok = [] then Option.none
    else
      match rest.dropWhile wordChar with
      | '"' :: _ => some tok
      | _ => Option.none

/-- First successful extraction over a list of lines, matching the
leftmost-match semantics of FindStringSubmatch in multiline mode. -/
def firstTokenOfLines : List (List Char) → Option (List Char)
  | [] => Option.none
  | l :: ls =>
    match lineVMStateToken l with
    | some t => some t
    | Option.none => firstTokenOfLines ls

/-- The first VMState token of a machine-readable output string. -/
def firstVMStateToken (out : String) : Option String :=
  match firstTokenOfLines (splitOnChar '\n' out.data) with
  | some t => some (String.mk t)
  | Option.none => Option.none

/-- The switch of GetState: maps the extracted token to a state; a missing
or unmapped token yields the unknown state. -/
def stateForToken : Option String → VMState
  | Option.none => VMState.none
  | some t =>
    if t = "running" then VMState.running
    else if t = "paused" then VMState.paused
    else if t = "saved" then VMState.saved
    else if t = "poweroff" ∨ t = "aborted" then VMState.stopped
    else VMState.none

/-- The full state parser of GetState applied to the stdout of the
showvminfo invocation. -/
def parseVMState (out : String) : VMState :=
  stateForToken (firstVMStateToken out)

/-- Modelled from the spec: the machine-not-found stderr test of the
Command Executor (the reMachineNotFound regexp lives in a repository file
that is not under src). The hypervisor reports an unknown machine name
with a fixed diagnostic sentence; the test is a substring match. -/
def machineNotFoundStderr (stderr : String) : Bool :=
  containsList ("Could not find a registered machine named".data) stderr.data

/-- Substring containment on strings, embedding strings.Contains for the
fixed nonempty diagnostic substrings scanned by the log reader. -/
def containsSub (s pat : String) : Bool := containsList pat.data s.data

/-- The VT-x failure scan of IsVTXDisabledInTheVM over the log lines. -/
def vtxDisabledInLines (lines : List String) : Bool :=
  lines.any fun line =>
    containsSub line "VT-x is disabled" ||
    containsSub line "the host CPU does NOT support HW virtualization" ||
    containsSub line "VERR_VMX_UNABLE_TO_START_VM"

/-- Embeds strconv.Atoi: an optional sign followed by a nonempty run of
decimal digits (overflow is not modelled; the ports involved are small). -/
def atoi (s : String) : Option Int :=
  match s.data with
  | [] => Option.none
  | '-' :: rest =>
    if rest ≠ [] ∧ rest.all Char.isDigit then some (-(digitsVal rest : Int))
    else Option.none
  | '+' :: rest =>
    if rest ≠ [] ∧ rest.all Char.isDigit then some (digitsVal rest : Int)
    else Option.none
  | l =>
    if l.all Char.isDigit then some (digitsVal l : Int) else Option.none

/-- Embeds strings.SplitN with count two for a single-character separator
(the source splits a listener address at the first colon): split at the
first occurrence only. -/
def splitN2 (s : String) (c : Char) : List String :=
  match splitOnChar c s.data with
  | [] => []
  | [a] => [String.mk a]
  | a :: rest => [String.mk a, String.mk (List.intercalate [c] rest)]

/-- Modelled from the spec: the adapter-match lookup used by the post-boot
validation in Start (getHostOnlyAdapter lives in a repository file that is
not under src). It returns the first listed adapter whose configured
address and mask equal the expected ones. -/
def getHostOnlyAdapter (nets : List HostOnlyNetwork) (ip mask : IPv4) :
    Option HostOnlyNetwork :=
  nets.find? fun n => n.ipv4.ip = ip ∧ n.ipv4.mask = mask

/-- Modelled from the spec: store-path resolution of the base driver, a
pure path join under the machine store directory. -/
def resolveStorePath (d : DriverCfg) (file : String) : String :=
  d.storePath ++ "/machines/" ++ d.machineName ++ "/" ++ file

/-- The path of the machine disk image. -/
def diskPath (d : DriverCfg) : String := resolveStorePath d "disk.vmdk"

/-- One second in the nanosecond unit of Go time.Duration. -/
def second : Nat := 1000000000

/-- A driver computation: from the global call counter to a result, the
next counter value, and the trace of external interactions. -/
def DM (α : Type) : Type := Nat → Except GoErr α × Nat × List Entry

/-- The computation returning a value with no interaction. -/
def DM.pure (a : α) : DM α := fun n => (Except.ok a, n, [])

/-- The computation failing with an error with no interaction. -/
def DM.fail (e : GoErr) : DM α := fun n => (Except.error e, n, [])

/-- Sequencing: an error in the first computation short-circuits, exactly
as the early returns of the source do; traces concatenate. -/
def DM.bind (x : DM α) (f : α → DM β) : DM β := fun n =>
  match x n with
  | (Except.ok a, n1, t1) =>
    match f a n1 with
    | (r, n2, t2) => (r, n2, t1 ++ t2)
  | (Except.error e, n1, t1) => (Except.error e, n1, t1)

/-- Wraps the error of a computation with a message, embedding the
fmt.Errorf wrapping at the call sites of the source. -/
def DM.wrapErr (msg : String) (x : DM α) : DM α := fun n =>
  match x n with
  | (Except.error e, n1, t1) => (Except.error (GoErr.wrap msg e), n1, t1)
  | r => r

/-- Runs a hypervisor CLI command whose result the caller checks: a
non-zero exit becomes an error carrying the captured stderr (the Command
Executor is modelled from the spec: it maps non-zero exit to errors). -/
def vbmRun (w : World) (args : List String) : DM Unit := fun n =>
  let r := w.exec n
  (if r.ok then Except.ok () else Except.error (GoErr.cli r.stderr),
   n + 1, [Entry.cmd n args])

/-- Runs a hypervisor CLI command whose result the call site discards. -/
def vbmDiscard (_w : World) (args : List String) : DM Unit := fun n =>
  (Except.ok (), n + 1, [Entry.cmdIgnored n args])

/-- Modelled from the spec: listHostOnlyAdapters enumerates the host-only
adapters through the Executor (its definition is in a repository file not
under src); here the oracle answers directly. -/
def listIfsRun (w : World) : DM (List HostOnlyNetwork) := fun n =>
  (w.listIfsRes n, n + 1, [Entry.listIfs n])

/-- Modelled from the spec: getOrCreateHostOnlyNetwork finds or creates an
adapter matching the target address and mask and is answered by the
oracle. -/
def getOrCreateRun (w : World) (ip mask : IPv4) : DM HostOnlyNetwork :=
  fun n => (w.getOrCreateRes n, n + 1, [Entry.getOrCreate n ip mask])

/-- Modelled from the spec: removeOrphanDHCPServers deletes DHCP servers
bound to adapters that no longer exist. -/
def removeOrphansRun (w : World) : DM Unit := fun n =>
  (w.removeOrphansRes n, n + 1, [Entry.removeOrphans n])

/-- Modelled from the spec: addHostOnlyDHCPServer idempotently installs a
DHCP server binding for the adapter with the given configuration. -/
def addDHCPRun (w : World) (adapterName : String) (cfg : DhcpServer) :
    DM Unit := fun n =>
  (w.addDHCPRes n, n + 1, [Entry.addDHCP n adapterName cfg])

/-- Modelled from the spec: SaveIPv4 rewrites the IPv4 configuration of
the adapter, the repair action of the Network Manager. -/
def saveIPv4Run (w : World) (adapter : HostOnlyNetwork) : DM Unit :=
  fun n => (w.saveIPv4Res n, n + 1, [Entry.saveAdapterIPv4 n adapter])

/-- The IP waiter collaborator. -/
def waitIPRun (w : World) : DM Unit := fun n =>
  (w.waitIPRes n, n + 1, [Entry.waitIP n])

/-- The log reader collaborator. -/
def readLogsRun (w : World) : DM (List String) := fun n =>
  (w.readLogsRes n, n + 1, [Entry.readLogs n])

/-- The socket probe: net.Listen on the loopback address with the given
port, answering the local address string of the listener on success. -/
def listenRun (w : World) (port : Int) : DM String := fun n =>
  (w.listenRes n, n + 1, [Entry.listen n port])

/-- The random source collaborator: RandomInt with the given bound. -/
def randomRun (w : World) (bound : Nat) : DM Nat := fun n =>
  (Except.ok (w.randomVal n), n + 1, [Entry.randomDraw n bound])

/-- The sleeper collaborator; consumes no oracle answer. -/
def sleepRun (nanos : Nat) : DM Unit := fun n =>
  (Except.ok (), n, [Entry.sleep nanos])

/-- The ISO cache copier collaborator. -/
def copyIsoRun (w : World) : DM Unit := fun n =>
  (w.copyIsoRes n, n + 1, [Entry.copyIsoToMachineDir n])

/-- The SSH key generator collaborator. -/
def genKeyRun (w : World) : DM Unit := fun n =>
  (w.genKeyRes n, n + 1, [Entry.generateSSHKey n])

/-- The disk creator collaborator. -/
def createDiskRun (w : World) : DM Unit := fun n =>
  (w.createDiskRes n, n + 1, [Entry.createDiskImage n])

/-- The os.Stat probe on a path. -/
def statRun (w : World) (path : String) : DM StatResult := fun n =>
  (Except.ok (w.statRes n), n + 1, [Entry.statPath n path])

/-- Modelled from the spec: getVMDiskInfo extracts the disk path of an
existing VM from CLI text. -/
def vmDiskPathRun (w : World) (vmName : String) : DM String := fun n =>
  (w.vmDiskPathRes n, n + 1, [Entry.queryVMDiskInfo n vmName])

/-- Modelled from the spec: getVMInfo extracts the numeric CPU and memory
fields of an existing VM from CLI text. -/
def vmInfoRun (w : World) (vmName : String) : DM (Int × Int) := fun n =>
  (w.vmInfoRes n, n + 1, [Entry.queryVMInfo n vmName])

/-- The SSH key file copier used when importing an existing VM. -/
def copyFileRun (w : World) : DM Unit := fun n =>
  (w.copyFileRes n, n + 1, [Entry.copyFile n])

/-- Embeds GetState: one showvminfo invocation in machine-readable mode;
on failure a stderr matching the machine-not-found diagnostic becomes the
machine-not-exist error; on success the stdout is parsed, and a missing or
unmapped state token is the unknown state, not an error. -/
def GetState (w : World) (d : DriverCfg) : DM VMState := fun n =>
  (if (w.exec n).ok then Except.ok (parseVMState (w.exec n).stdout)
   else if machineNotFoundStderr (w.exec n).stderr then
     Except.error GoErr.machineNotExist
   else Except.error (GoErr.cli (w.exec n).stderr),
   n + 1,
   [Entry.cmd n ["showvminfo", d.machineName, "--machinereadable"]])

/-- Embeds IsVTXDisabledInTheVM: read the VM log and scan it for the three
fixed failure substrings (on a read failure the Go function returns true
together with the error; the error is what the caller acts on, so the
Except short-circuit is faithful). -/
def IsVTXDisabledInTheVM (w : World) : DM Bool :=
  DM.bind (readLogsRun w) fun lines => DM.pure (vtxDisabledInLines lines)

/-- Embeds getRandomIPinSubnet: up to five draws of RandomInt 25; a draw
whose low byte differs from the last octet of the base IP is accepted. -/
def randomLoop (w : World) (base : IPv4) : Nat → DM (Option IPv4)
  | 0 => DM.pure Option.none
  | k + 1 =>
    DM.bind (randomRun w 25) fun n =>
    if n % 256 ≠ base.o3 then
      DM.pure (some ⟨base.o0, base.o1, base.o2, n % 256⟩)
    else randomLoop w base k

/-- Embeds getRandomIPinSubnet: if all five draws clash with the host
octet the random-address-exhausted error is returned. -/
def getRandomIPinSubnet (w : World) (base : IPv4) : DM IPv4 :=
  DM.bind (randomLoop w base 5) fun r =>
  match r with
  | some ip => DM.pure ip
  | Option.none => DM.fail GoErr.unableToGenerateRandomIP

/-- Embeds the loop body and iteration of getAvailableTCPPort: the Go loop
runs for indices zero through ten, eleven listen attempts in all. A listen
failure returns immediately; a parsed port of zero resets the hint to zero,
sleeps one nanosecond and retries; otherwise the parsed port is returned. -/
def portIter (w : World) : Nat → Int → DM Int
  | 0, _ => DM.fail GoErr.allocatePortFailed
  | k + 1, port =>
    DM.bind (listenRun w port) fun addr =>
    match atoi ((splitN2 addr ':').getD 1 "") with
    | Option.none => DM.fail GoErr.atoiFailed
    | some p =>
      if p ≠ 0 then DM.pure p
      else DM.bind (sleepRun 1) fun _ => portIter w k 0

/-- Embeds getAvailableTCPPort with its eleven-iteration budget. -/
def getAvailableTCPPort (w : World) (port : Int) : DM Int :=
  portIter w 11 port

/-- The flag name of the NAT port-forwarding rule set for an interface. -/
def natpfFlag (interfaceNum : Nat) : String := "--natpf" ++ toString interfaceNum

/-- The rule string of a NAT forwarding entry bound to loopback. -/
def natpfRule (mapName protocol : String) (hostPort guestPort : Int) :
    String :=
  mapName ++ "," ++ protocol ++ ",127.0.0.1," ++ toString hostPort ++ ",," ++
    toString guestPort

/-- Embeds setPortForwarding: allocate a host port, delete any prior rule
of the same name with the result discarded, then install the new rule. -/
def setPortForwarding (w : World) (d : DriverCfg) (interfaceNum : Nat)
    (mapName protocol : String) (guestPort desiredHostPort : Int) : DM Int :=
  DM.bind (getAvailableTCPPort w desiredHostPort) fun actualHostPort =>
  DM.bind (vbmDiscard w
    ["modifyvm", d.machineName, natpfFlag interfaceNum, "delete", mapName])
    fun _ =>
  DM.bind (vbmRun w
    ["modifyvm", d.machineName, natpfFlag interfaceNum,
     natpfRule mapName protocol actualHostPort guestPort]) fun _ =>
  DM.pure actualHostPort

/-- The effective CIDR of setupHostOnlyNetwork: an empty configured CIDR
falls back to the default (the version-migration branch of the source). -/
def effectiveCIDR (d : DriverCfg) : String :=
  if d.hostOnlyCIDR = "" then defaultHostOnlyCIDR else d.hostOnlyCIDR

/-- The DHCP server configuration that setupHostOnlyNetwork builds from
the network address and the chosen server address: lease bounds at host
octets one hundred and two hundred fifty-four, enabled. -/
def dhcpConfigFor (network : IPNet) (dhcpAddr : IPv4) : DhcpServer :=
  ⟨⟨dhcpAddr, network.mask⟩,
   ⟨network.ip.o0, network.ip.o1, network.ip.o2, 100⟩,
   ⟨network.ip.o0, network.ip.o1, network.ip.o2, 254⟩,
   true⟩

/-- Embeds setupHostOnlyNetwork: parse and validate the CIDR, find or
create the adapter, remove orphan DHCP servers, choose a random server
address, install the DHCP server, and attach the adapter to the VM as its
second NIC. -/
def setupHostOnlyNetwork (w : World) (d : DriverCfg) : DM HostOnlyNetwork :=
  match parseAndValidateCIDR (effectiveCIDR d) with
  | Except.error e => DM.fail e
  | Except.ok ipNet =>
    DM.bind (getOrCreateRun w ipNet.1 ipNet.2.mask) fun adapter =>
    DM.bind (removeOrphansRun w) fun _ =>
    DM.bind (getRandomIPinSubnet w ipNet.1) fun dhcpAddr =>
    DM.bind (addDHCPRun w adapter.name (dhcpConfigFor ipNet.2 dhcpAddr))
      fun _ =>
    DM.bind (vbmRun w
      ["modifyvm", d.machineName,
       "--nic2", "hostonly",
       "--nictype2", d.hostOnlyNicType,
       "--nicpromisc2", d.hostOnlyPromiscMode,
       "--hostonlyadapter2", adapter.name,
       "--cableconnected2", "on"]) fun _ =>
    DM.pure adapter

/-- The polling loop of Stop: query the state, sleep one second while it
is still Running, stop polling when it is not. The Go loop is unbounded;
the embedding takes a fuel bound and reports exhausted fuel as an error. -/
def stopLoop (w : World) (d : DriverCfg) : Nat → DM Unit
  | 0 => DM.fail GoErr.fuelExhausted
  | fuel + 1 =>
    DM.bind (GetState w d) fun s =>
    if s = VMState.running then
      DM.bind (sleepRun second) fun _ => stopLoop w d fuel
    else DM.pure ()

/-- Embeds Stop: resume first when paused, send the ACPI power button
signal, then poll until the state leaves Running. -/
def Stop (w : World) (d : DriverCfg) (fuel : Nat) : DM Unit :=
  DM.bind (GetState w d) fun s =>
  DM.bind (if s = VMState.paused then
             vbmRun w ["controlvm", d.machineName, "resume"]
           else DM.pure ()) fun _ =>
  DM.bind (vbmRun w ["controlvm", d.machineName, "acpipowerbutton"]) fun _ =>
  stopLoop w d fuel

/-- Embeds Kill: an immediate power-off. -/
def Kill (w : World) (d : DriverCfg) : DM Unit :=
  vbmRun w ["controlvm", d.machineName, "poweroff"]

/-- Embeds Restart: a hard reset then a wait for a new IP. -/
def Restart (w : World) (d : DriverCfg) : DM Unit :=
  DM.bind (vbmRun w ["controlvm", d.machineName, "reset"]) fun _ =>
  waitIPRun w

/-- The tail of Remove past the state query: stop a running machine,
kill one that is neither running nor stopped, sleep one second for the
lock, then unregister with deletion of storage. -/
def removeRest (w : World) (d : DriverCfg) (fuel : Nat) (s : VMState) :
    DM Unit :=
  DM.bind (if s = VMState.running then Stop w d fuel
           else if s ≠ VMState.stopped then Kill w d
           else DM.pure ()) fun _ =>
  DM.bind (sleepRun second) fun _ =>
  vbmRun w ["unregistervm", "--delete", d.machineName]

/-- Embeds Remove: a machine whose state query reports machine-not-exist
is treated as already removed, with success and no further command. -/
def Remove (w : World) (d : DriverCfg) (fuel : Nat) : DM Unit := fun n =>
  match GetState w d n with
  | (Except.error GoErr.machineNotExist, n1, t1) => (Except.ok (), n1, t1)
  | (Except.error e, n1, t1) => (Except.error e, n1, t1)
  | (Except.ok s, n1, t1) =>
    match removeRest w d fuel s n1 with
    | (r, n2, t2) => (r, n2, t1 ++ t2)

/-- The repair sequence of Start, run when the post-boot validation finds
no matching adapter: stop the VM, sleep five seconds to release the lock,
rewrite the adapter IPv4 configuration, sleep five seconds to settle,
reboot headless and wait for an IP again. -/
def startRepair (w : World) (d : DriverCfg) (fuel : Nat)
    (adapter : HostOnlyNetwork) : DM Unit :=
  DM.bind (Stop w d fuel) fun _ =>
  DM.bind (sleepRun (5 * second)) fun _ =>
  DM.bind (saveIPv4Run w adapter) fun _ =>
  DM.bind (sleepRun (5 * second)) fun _ =>
  DM.bind (DM.wrapErr "Unable to start the VM: "
    (vbmRun w ["startvm", d.machineName, "--type", "headless"])) fun _ =>
  waitIPRun w

/-- The post-boot validation of Start, run only when a host-only adapter
was set up this call: list the adapters, re-parse the configured CIDR, and
when no adapter matches the expected IP and mask run the repair sequence
once. -/
def startValidate (w : World) (d : DriverCfg) (fuel : Nat)
    (adapter : HostOnlyNetwork) : DM Unit :=
  DM.bind (listIfsRun w) fun nets =>
  match parseAndValidateCIDR d.hostOnlyCIDR with
  | Except.error e => DM.fail e
  | Except.ok ipNet =>
    match getHostOnlyAdapter nets ipNet.1 ipNet.2.mask with
    | some _ => DM.pure ()
    | Option.none => startRepair w d fuel adapter

/-- The state dispatch of Start: stopped and saved machines get the SSH
port-forwarding rule and a headless boot; paused machines get a resume;
any other state gets no transition command. -/
def startTransition (w : World) (d : DriverCfg) (s : VMState) : DM Unit :=
  if s = VMState.stopped ∨ s = VMState.saved then
    DM.bind (setPortForwarding w d 1 "ssh" "tcp" 22 d.sshPort) fun _ =>
    DM.wrapErr "Unable to start the VM: "
      (vbmRun w ["startvm", d.machineName, "--type", "headless"])
  else if s = VMState.paused then
    vbmRun w ["controlvm", d.machineName, "resume", "--type", "headless"]
  else DM.pure ()

/-- The tail of Start past the transition: the VT-x log check, the IP
wait, and the post-boot validation when an adapter was set up. -/
def startTail (w : World) (d : DriverCfg) (fuel : Nat)
    (adapterOpt : Option HostOnlyNetwork) : DM Unit :=
  DM.bind (DM.wrapErr "Checking if hardware virtualization is enabled failed: "
    (IsVTXDisabledInTheVM w)) fun vtx =>
  DM.bind (if vtx then DM.fail GoErr.mustEnableVTX else DM.pure ()) fun _ =>
  DM.bind (waitIPRun w) fun _ =>
  match adapterOpt with
  | Option.none => DM.pure ()
  | some adapter => startValidate w d fuel adapter

/-- Embeds Start: query the state; when stopped, set up the host-only
network; dispatch the transition on the state; then check VT-x, wait for
an IP, and validate or repair the adapter set up this call. -/
def Start (w : World) (d : DriverCfg) (fuel : Nat) : DM Unit :=
  DM.bind (GetState w d) fun s =>
  DM.bind (if s = VMState.stopped then
             DM.bind (DM.wrapErr
               "Error setting up host only network on machine start: "
               (setupHostOnlyNetwork w d)) fun a => DM.pure (some a)
           else DM.pure Option.none) fun adapterOpt =>
  DM.bind (startTransition w d s) fun _ =>
  startTail w d fuel adapterOpt

/-- The CPU clamp of CreateVM: a configured count below one is replaced by
the host CPU count, and the result of that replacement is then capped at
thirty-two. -/
def clampCPUs (cpu : Int) (numCPU : Nat) : Int :=
  let c1 : Int := if cpu < 1 then (numCPU : Int) else cpu
  if c1 > 32 then 32 else c1

/-- The on-off string of a boolean VM flag. -/
def onOff (b : Bool) : String := if b then "on" else "off"

/-- The long modifyvm argument list of CreateVM with the clamped CPU count
and the memory size. -/
def modifyVMArgs (d : DriverCfg) (cpus mem : Int) : List String :=
  ["modifyvm", d.machineName,
   "--firmware", "bios",
   "--bioslogofadein", "off",
   "--bioslogofadeout", "off",
   "--bioslogodisplaytime", "0",
   "--biosbootmenu", "disabled",
   "--ostype", "Linux26_64",
   "--cpus", toString cpus,
   "--memory", toString mem,
   "--acpi", "on",
   "--ioapic", "on",
   "--rtcuseutc", "on",
   "--natdnshostresolver1", onOff d.hostDNSResolver,
   "--natdnsproxy1", onOff d.dnsProxy,
   "--cpuhotplug", "off",
   "--pae", "on",
   "--hpet", "on",
   "--hwvirtex", "on",
   "--nestedpaging", "on",
   "--largepages", "on",
   "--vtxvpid", "on",
   "--accelerate3d", "off",
   "--boot1", "dvd"]

/-- The import branch of CreateVM: power off the imported VM with the
result discarded, read its disk path, check the path exists, clone the
disk, and import the CPU and memory settings and the SSH key. The value
returned is the imported CPU and memory pair. -/
def createImport (w : World) (d : DriverCfg) : DM (Int × Int) :=
  DM.bind (vbmDiscard w ["controlvm", d.boot2DockerImportVM, "poweroff"])
    fun _ =>
  DM.bind (vmDiskPathRun w d.boot2DockerImportVM) fun srcDisk =>
  DM.bind (DM.bind (statRun w srcDisk) fun st =>
           match st with
           | StatResult.ok => DM.pure ()
           | StatResult.notExist => DM.fail GoErr.fileNotExist
           | StatResult.errOther e => DM.fail e) fun _ =>
  DM.bind (vbmRun w ["clonehd", srcDisk, diskPath d]) fun _ =>
  DM.bind (vmInfoRun w d.boot2DockerImportVM) fun info =>
  DM.bind (copyFileRun w) fun _ =>
  DM.pure info

/-- The shared-folder block of CreateVM: when a share directory is known
and sharing is enabled, stat it; a stat error other than not-exist fails;
when it exists, add the shared folder under the share name, defaulting to
the directory with leading slashes trimmed, and enable symlinks. -/
def createShare (w : World) (d : DriverCfg) : DM Unit :=
  if w.shareDir ≠ "" ∧ ¬ d.noShare then
    DM.bind (statRun w w.shareDir) fun st =>
    match st with
    | StatResult.errOther e => DM.fail e
    | StatResult.notExist => DM.pure ()
    | StatResult.ok =>
      let shareName := if w.shareName0 = "" then
        String.mk (w.shareDir.data.dropWhile (fun c => c = '/')) else w.shareName0
      DM.bind (vbmRun w
        ["sharedfolder", "add", d.machineName,
         "--name", shareName, "--hostpath", w.shareDir, "--automount"])
        fun _ =>
      vbmRun w
        ["setextradata", d.machineName,
         "VBoxInternal2/SharedFoldersEnableSymlinksCreate/" ++ shareName,
         "1"]
  else DM.pure ()

/-- Embeds CreateVM: copy the ISO, import an existing VM or generate a key
and a disk, register the VM, apply the baseline hardware settings with the
clamped CPU count, configure NAT, storage, guest properties, and the
shared folder. -/
def CreateVM (w : World) (d : DriverCfg) : DM Unit :=
  DM.bind (copyIsoRun w) fun _ =>
  DM.bind (if d.boot2DockerImportVM ≠ "" then createImport w d
           else
             DM.bind (genKeyRun w) fun _ =>
             DM.bind (createDiskRun w) fun _ =>
             DM.pure (d.cpu, d.memory)) fun cpuMem =>
  DM.bind (vbmRun w
    ["createvm", "--basefolder", resolveStorePath d ".",
     "--name", d.machineName, "--register"]) fun _ =>
  DM.bind (vbmRun w
    (modifyVMArgs d (clampCPUs cpuMem.1 w.numCPU) cpuMem.2)) fun _ =>
  DM.bind (vbmRun w
    ["modifyvm", d.machineName,
     "--nic1", "nat", "--nictype1", "82540EM", "--cableconnected1", "on"])
    fun _ =>
  DM.bind (vbmRun w
    ["storagectl", d.machineName,
     "--name", "SATA", "--add", "sata", "--hostiocache", "on"]) fun _ =>
  DM.bind (vbmRun w
    ["storageattach", d.machineName,
     "--storagectl", "SATA", "--port", "0", "--device", "0",
     "--type", "dvddrive",
     "--medium", resolveStorePath d "boot2docker.iso"]) fun _ =>
  DM.bind (vbmRun w
    ["storageattach", d.machineName,
     "--storagectl", "SATA", "--port", "1", "--device", "0",
     "--type", "hdd", "--medium", diskPath d]) fun _ =>
  DM.bind (vbmRun w
    ["guestproperty", "set", d.machineName,
     "/VirtualBox/GuestAdd/SharedFolders/MountPrefix", "/"]) fun _ =>
  DM.bind (vbmRun w
    ["guestproperty", "set", d.machineName,
     "/VirtualBox/GuestAdd/SharedFolders/MountDir", "/"]) fun _ =>
  createShare w d

/-! ## Generic lemmas about the effect monad -/

/-- Characterization of bind: the result and counter come from running the
continuation on the value of the first computation, and the traces
concatenate; an error passes through unchanged. -/
theorem DM.bind_eq (x : DM α) (f : α → DM β) (n : Nat) :
    DM.bind x f n =
      match (x n).1 with
      | Except.ok a =>
        ((f a (x n).2.1).1, (f a (x n).2.1).2.1,
         (x n).2.2 ++ (f a (x n).2.1).2.2)
      | Except.error e => (Except.error e, (x n).2.1, (x n).2.2) := by
  unfold DM.bind
  rcases hx : x n with ⟨r, n1, t1⟩
  cases r with
  | ok a =>
    rcases hf : f a n1 with ⟨r2, n2, t2⟩
    simp [hx, hf]
  | error e => simp [hx]

/-- A successful bind decomposes into a successful first computation and a
successful continuation. -/
theorem DM.bind_fst_ok {x : DM α} {f : α → DM β} {n : Nat} {b : β}
    (h : (DM.bind x f n).1 = Except.ok b) :
    ∃ a, (x n).1 = Except.ok a ∧ (f a (x n).2.1).1 = Except.ok b := by
  rw [DM.bind_eq] at h
  cases hx : (x n).1 with
  | ok a => rw [hx] at h; exact ⟨a, rfl, h⟩
  | error e => rw [hx] at h; simp at h

/-- A trace element of a bind comes from the first computation or, after
its success, from the continuation. -/
theorem DM.bind_trace_cases {x : DM α} {f : α → DM β} {n : Nat} {e : Entry}
    (h : e ∈ (DM.bind x f n).2.2) :
    e ∈ (x n).2.2 ∨
      ∃ a, (x n).1 = Except.ok a ∧ e ∈ (f a (x n).2.1).2.2 := by
  rw [DM.bind_eq] at h
  cases hx : (x n).1 with
  | ok a =>
    rw [hx] at h
    simp only [List.mem_append] at h
    cases h with
    | inl h => exact Or.inl h
    | inr h => exact Or.inr ⟨a, rfl, h⟩
  | error e0 => rw [hx] at h; exact Or.inl h

/-- Trace elements of the first computation stay in the bind trace. -/
theorem DM.bind_mem_left {x : DM α} {f : α → DM β} {n : Nat} {e : Entry}
    (h : e ∈ (x n).2.2) : e ∈ (DM.bind x f n).2.2 := by
  rw [DM.bind_eq]
  cases hx : (x n).1 with
  | ok a => simp; exact Or.inl h
  | error e0 => exact h

/-- Trace elements of the continuation stay in the bind trace. -/
theorem DM.bind_mem_right {x : DM α} {f : α → DM β} {n : Nat} {e : Entry}
    {a : α} (hx : (x n).1 = Except.ok a)
    (h : e ∈ (f a (x n).2.1).2.2) : e ∈ (DM.bind x f n).2.2 := by
  rw [DM.bind_eq, hx]
  simp
  exact Or.inr h

/-- Characterization of the error wrapper: the counter and trace are those
of the inner computation, and only an error result changes. -/
theorem DM.wrapErr_eq (m : String) (x : DM α) (n : Nat) :
    DM.wrapErr m x n =
      (match (x n).1 with
       | Except.ok a => Except.ok a
       | Except.error e => Except.error (GoErr.wrap m e),
       (x n).2.1, (x n).2.2) := by
  unfold DM.wrapErr
  rcases hx : x n with ⟨r, n1, t1⟩
  cases r with
  | ok a => simp [hx]
  | error e => simp [hx]

/-- Every entry of every trace of a computation satisfies a predicate. -/
def TraceAll (P : Entry → Prop) (x : DM α) : Prop :=
  ∀ n, ∀ e ∈ (x n).2.2, P e

/-- Every entry of every successful run of a computation satisfies a
predicate. -/
def OkTrace (P : Entry → Prop) (x : DM α) : Prop :=
  ∀ n a, (x n).1 = Except.ok a → ∀ e ∈ (x n).2.2, P e

/-- A bound on the number of trace entries matching a test, over all
runs of a computation. -/
def TraceCount (p : Entry → Bool) (x : DM α) (k : Nat) : Prop :=
  ∀ n, ((x n).2.2).countP p ≤ k

theorem TraceAll.toOkTrace {P : Entry → Prop} {x : DM α}
    (h : TraceAll P x) : OkTrace P x :=
  fun n _ _ e he => h n e he

theorem TraceAll.bind_all {P : Entry → Prop} {x : DM α} {f : α → DM β}
    (hx : TraceAll P x) (hf : ∀ a, TraceAll P (f a)) :
    TraceAll P (DM.bind x f) := by
  intro n e he
  rcases DM.bind_trace_cases he with h | ⟨a, _, h⟩
  · exact hx n e h
  · exact hf a _ e h

theorem OkTrace.bind_ok {P : Entry → Prop} {x : DM α} {f : α → DM β}
    (hx : OkTrace P x) (hf : ∀ a, OkTrace P (f a)) :
    OkTrace P (DM.bind x f) := by
  intro n b hb e he
  rcases DM.bind_fst_ok hb with ⟨a, hxa, hfa⟩
  rcases DM.bind_trace_cases he with h | ⟨a2, hxa2, h⟩
  · exact hx n a hxa e h
  · rw [hxa] at hxa2
    injection hxa2 with haa
    subst haa
    exact hf a _ b hfa e h

theorem TraceCount.bind_count {p : Entry → Bool} {x : DM α} {f : α → DM β}
    {j k : Nat} (hx : TraceCount p x j) (hf : ∀ a, TraceCount p (f a) k) :
    TraceCount p (DM.bind x f) (j + k) := by
  intro n
  rw [DM.bind_eq]
  cases hxr : (x n).1 with
  | ok a =>
    simp only [List.countP_append]
    exact Nat.add_le_add (hx n) (hf a _)
  | error e => exact Nat.le_trans (hx n) (Nat.le_add_right j k)

theorem TraceCount.zero_of_all {p : Entry → Bool} {x : DM α}
    (h : TraceAll (fun e => p e = false) x) : TraceCount p x 0 := by
  intro n
  have : ((x n).2.2).countP p = 0 :=
    List.countP_eq_zero.mpr (fun e he => by simp [h n e he])
  omega

theorem TraceCount.mono_le {p : Entry → Bool} {x : DM α} {j k : Nat}
    (h : TraceCount p x j) (hjk : j ≤ k) : TraceCount p x k :=
  fun n => Nat.le_trans (h n) hjk

theorem TraceAll.wrapErr_all {P : Entry → Prop} {x : DM α} {m : String}
    (h : TraceAll P x) : TraceAll P (DM.wrapErr m x) := by
  intro n e he
  rw [DM.wrapErr_eq] at he
  exact h n e he

theorem OkTrace.wrapErr_ok {P : Entry → Prop} {x : DM α} {m : String}
    (h : OkTrace P x) : OkTrace P (DM.wrapErr m x) := by
  intro n a ha e he
  rw [DM.wrapErr_eq] at ha he
  cases hx : (x n).1 with
  | ok b => rw [hx] at ha; cases ha; exact h n a hx e he
  | error e0 => rw [hx] at ha; cases ha

theorem TraceCount.wrapErr_count {p : Entry → Bool} {x : DM α} {m : String}
    {k : Nat} (h : TraceCount p x k) : TraceCount p (DM.wrapErr m x) k := by
  intro n
  rw [DM.wrapErr_eq]
  exact h n

theorem TraceAll.pure {P : Entry → Prop} (a : α) : TraceAll P (DM.pure a) :=
  fun _ e he => absurd he (List.not_mem_nil e)

theorem TraceAll.fail {P : Entry → Prop} (e0 : GoErr) :
    TraceAll P (DM.fail e0 : DM α) :=
  fun _ e he => absurd he (List.not_mem_nil e)

/-- Leaf rule: a computation whose every run records exactly one entry
satisfies TraceAll when every such entry does. -/
theorem TraceAll.single_all {P : Entry → Prop} (x : DM α) (mk : Nat → Entry)
    (ht : ∀ n, (x n).2.2 = [mk n]) (hP : ∀ n, P (mk n)) : TraceAll P x := by
  intro n e he
  rw [ht n, List.mem_singleton] at he
  subst he
  exact hP n

/-- Leaf rule for OkTrace over single-entry computations. -/
theorem OkTrace.single_ok {P : Entry → Prop} (x : DM α) (mk : Nat → Entry)
    (ht : ∀ n, (x n).2.2 = [mk n])
    (hP : ∀ n a, (x n).1 = Except.ok a → P (mk n)) : OkTrace P x := by
  intro n a ha e he
  rw [ht n, List.mem_singleton] at he
  subst he
  exact hP n a ha

/-! ## Trace shapes of the primitives -/

theorem vbmRun_trace (w : World) (args : List String) (n : Nat) :
    (vbmRun w args n).2.2 = [Entry.cmd n args] := rfl

theorem vbmDiscard_trace (w : World) (args : List String) (n : Nat) :
    (vbmDiscard w args n).2.2 = [Entry.cmdIgnored n args] := rfl

theorem listIfsRun_trace (w : World) (n : Nat) :
    (listIfsRun w n).2.2 = [Entry.listIfs n] := rfl

theorem getOrCreateRun_trace (w : World) (ip mask : IPv4) (n : Nat) :
    (getOrCreateRun w ip mask n).2.2 = [Entry.getOrCreate n ip mask] := rfl

theorem removeOrphansRun_trace (w : World) (n : Nat) :
    (removeOrphansRun w n).2.2 = [Entry.removeOrphans n] := rfl

theorem addDHCPRun_trace (w : World) (a : String) (cfg : DhcpServer)
    (n : Nat) : (addDHCPRun w a cfg n).2.2 = [Entry.addDHCP n a cfg] := rfl

theorem saveIPv4Run_trace (w : World) (a : HostOnlyNetwork) (n : Nat) :
    (saveIPv4Run w a n).2.2 = [Entry.saveAdapterIPv4 n a] := rfl

theorem waitIPRun_trace (w : World) (n : Nat) :
    (waitIPRun w n).2.2 = [Entry.waitIP n] := rfl

theorem readLogsRun_trace (w : World) (n : Nat) :
    (readLogsRun w n).2.2 = [Entry.readLogs n] := rfl

theorem listenRun_trace (w : World) (port : Int) (n : Nat) :
    (listenRun w port n).2.2 = [Entry.listen n port] := rfl

theorem randomRun_trace (w : World) (bound : Nat) (n : Nat) :
    (randomRun w bound n).2.2 = [Entry.randomDraw n bound] := rfl

theorem sleepRun_trace (nanos n : Nat) :
    (sleepRun nanos n).2.2 = [Entry.sleep nanos] := rfl

theorem copyIsoRun_trace (w : World) (n : Nat) :
    (copyIsoRun w n).2.2 = [Entry.copyIsoToMachineDir n] := rfl

theorem genKeyRun_trace (w : World) (n : Nat) :
    (genKeyRun w n).2.2 = [Entry.generateSSHKey n] := rfl

theorem createDiskRun_trace (w : World) (n : Nat) :
    (createDiskRun w n).2.2 = [Entry.createDiskImage n] := rfl

theorem statRun_trace (w : World) (p : String) (n : Nat) :
    (statRun w p n).2.2 = [Entry.statPath n p] := rfl

theorem vmDiskPathRun_trace (w : World) (v : String) (n : Nat) :
    (vmDiskPathRun w v n).2.2 = [Entry.queryVMDiskInfo n v] := rfl

theorem vmInfoRun_trace (w : World) (v : String) (n : Nat) :
    (vmInfoRun w v n).2.2 = [Entry.queryVMInfo n v] := rfl

theorem copyFileRun_trace (w : World) (n : Nat) :
    (copyFileRun w n).2.2 = [Entry.copyFile n] := rfl

theorem getState_trace (w : World) (d : DriverCfg) (n : Nat) :
    (GetState w d n).2.2 =
      [Entry.cmd n ["showvminfo", d.machineName, "--machinereadable"]] := rfl

/-! ## Failure propagation: when an operation succeeds, every inspected
hypervisor invocation in its trace succeeded. -/

/-- An entry is harmless for failure propagation when it is not an
inspected hypervisor invocation, or the invocation succeeded. -/
def CmdOkP (w : World) : Entry → Prop
  | Entry.cmd i _ => (w.exec i).ok = true
  | _ => True

theorem okTrace_vbmRun (w : World) (args : List String) :
    OkTrace (CmdOkP w) (vbmRun w args) := by
  refine OkTrace.single_ok (vbmRun w args) (fun n => Entry.cmd n args)
    (vbmRun_trace w args) ?_
  intro n a ha
  by_cases hok : (w.exec n).ok
  · exact hok
  · simp [vbmRun, hok] at ha

theorem traceAll_cmdOk_vbmDiscard (w : World) (args : List String) :
    TraceAll (CmdOkP w) (vbmDiscard w args) :=
  TraceAll.single_all (vbmDiscard w args) (fun n => Entry.cmdIgnored n args)
    (vbmDiscard_trace w args) (fun _ => trivial)

theorem okTrace_getState (w : World) (d : DriverCfg) :
    OkTrace (CmdOkP w) (GetState w d) := by
  refine OkTrace.single_ok (GetState w d)
    (fun n => Entry.cmd n ["showvminfo", d.machineName, "--machinereadable"])
    (getState_trace w d) ?_
  intro n a ha
  by_cases hok : (w.exec n).ok
  · exact hok
  · exfalso
    simp only [GetState, hok, if_false] at ha
    by_cases hm : machineNotFoundStderr (w.exec n).stderr <;>
      simp [hm] at ha

theorem traceAll_cmdOk_listIfs (w : World) :
    TraceAll (CmdOkP w) (listIfsRun w) :=
  TraceAll.single_all (listIfsRun w) (fun n => Entry.listIfs n)
    (listIfsRun_trace w) (fun _ => trivial)

theorem traceAll_cmdOk_getOrCreate (w : World) (ip mask : IPv4) :
    TraceAll (CmdOkP w) (getOrCreateRun w ip mask) :=
  TraceAll.single_all (getOrCreateRun w ip mask)
    (fun n => Entry.getOrCreate n ip mask)
    (getOrCreateRun_trace w ip mask) (fun _ => trivial)

theorem traceAll_cmdOk_removeOrphans (w : World) :
    TraceAll (CmdOkP w) (removeOrphansRun w) :=
  TraceAll.single_all (removeOrphansRun w) (fun n => Entry.removeOrphans n)
    (removeOrphansRun_trace w) (fun _ => trivial)

theorem traceAll_cmdOk_addDHCP (w : World) (a : String) (cfg : DhcpServer) :
    TraceAll (CmdOkP w) (addDHCPRun w a cfg) :=
  TraceAll.single_all (addDHCPRun w a cfg) (fun n => Entry.addDHCP n a cfg)
    (addDHCPRun_trace w a cfg) (fun _ => trivial)

theorem traceAll_cmdOk_saveIPv4 (w : World) (a : HostOnlyNetwork) :
    TraceAll (CmdOkP w) (saveIPv4Run w a) :=
  TraceAll.single_all (saveIPv4Run w a) (fun n => Entry.saveAdapterIPv4 n a)
    (saveIPv4Run_trace w a) (fun _ => trivial)

theorem traceAll_cmdOk_waitIP (w : World) :
    TraceAll (CmdOkP w) (waitIPRun w) :=
  TraceAll.single_all (waitIPRun w) (fun n => Entry.waitIP n)
    (waitIPRun_trace w) (fun _ => trivial)

theorem traceAll_cmdOk_readLogs (w : World) :
    TraceAll (CmdOkP w) (readLogsRun w) :=
  TraceAll.single_all (readLogsRun w) (fun n => Entry.readLogs n)
    (readLogsRun_trace w) (fun _ => trivial)

theorem traceAll_cmdOk_listen (w : World) (port : Int) :
    TraceAll (CmdOkP w) (listenRun w port) :=
  TraceAll.single_all (listenRun w port) (fun n => Entry.listen n port)
    (listenRun_trace w port) (fun _ => trivial)

theorem traceAll_cmdOk_random (w : World) (bound : Nat) :
    TraceAll (CmdOkP w) (randomRun w bound) :=
  TraceAll.single_all (randomRun w bound) (fun n => Entry.randomDraw n bound)
    (randomRun_trace w bound) (fun _ => trivial)

theorem traceAll_cmdOk_sleep (w : World) (nanos : Nat) :
    TraceAll (CmdOkP w) (sleepRun nanos) :=
  TraceAll.single_all (sleepRun nanos) (fun _ => Entry.sleep nanos)
    (sleepRun_trace nanos) (fun _ => trivial)

theorem traceAll_cmdOk_copyIso (w : World) :
    TraceAll (CmdOkP w) (copyIsoRun w) :=
  TraceAll.single_all (copyIsoRun w) (fun n => Entry.copyIsoToMachineDir n)
    (copyIsoRun_trace w) (fun _ => trivial)

theorem traceAll_cmdOk_genKey (w : World) :
    TraceAll (CmdOkP w) (genKeyRun w) :=
  TraceAll.single_all (genKeyRun w) (fun n => Entry.generateSSHKey n)
    (genKeyRun_trace w) (fun _ => trivial)

theorem traceAll_cmdOk_createDisk (w : World) :
    TraceAll (CmdOkP w) (createDiskRun w) :=
  TraceAll.single_all (createDiskRun w) (fun n => Entry.createDiskImage n)
    (createDiskRun_trace w) (fun _ => trivial)

theorem traceAll_cmdOk_stat (w : World) (p : String) :
    TraceAll (CmdOkP w) (statRun w p) :=
  TraceAll.single_all (statRun w p) (fun n => Entry.statPath n p)
    (statRun_trace w p) (fun _ => trivial)

theorem traceAll_cmdOk_vmDiskPath (w : World) (v : String) :
    TraceAll (CmdOkP w) (vmDiskPathRun w v) :=
  TraceAll.single_all (vmDiskPathRun w v) (fun n => Entry.queryVMDiskInfo n v)
    (vmDiskPathRun_trace w v) (fun _ => trivial)

theorem traceAll_cmdOk_vmInfo (w : World) (v : String) :
    TraceAll (CmdOkP w) (vmInfoRun w v) :=
  TraceAll.single_all (vmInfoRun w v) (fun n => Entry.queryVMInfo n v)
    (vmInfoRun_trace w v) (fun _ => trivial)

theorem traceAll_cmdOk_copyFile (w : World) :
    TraceAll (CmdOkP w) (copyFileRun w) :=
  TraceAll.single_all (copyFileRun w) (fun n => Entry.copyFile n)
    (copyFileRun_trace w) (fun _ => trivial)

theorem okTrace_cmdOk_isVTX (w : World) :
    OkTrace (CmdOkP w) (IsVTXDisabledInTheVM w) :=
  OkTrace.bind_ok (traceAll_cmdOk_readLogs w).toOkTrace
    (fun _ => (TraceAll.pure _).toOkTrace)

theorem traceAll_cmdOk_randomLoop (w : World) (base : IPv4) (k : Nat) :
    TraceAll (CmdOkP w) (randomLoop w base k) := by
  induction k with
  | zero => exact TraceAll.pure _
  | succ k ih =>
    simp only [randomLoop]
    apply TraceAll.bind_all (traceAll_cmdOk_random w 25)
    intro m
    split
    · exact TraceAll.pure _
    · exact ih

theorem traceAll_cmdOk_getRandomIP (w : World) (base : IPv4) :
    TraceAll (CmdOkP w) (getRandomIPinSubnet w base) := by
  unfold getRandomIPinSubnet
  apply TraceAll.bind_all (traceAll_cmdOk_randomLoop w base 5)
  intro r
  split
  · exact TraceAll.pure _
  · exact TraceAll.fail _

theorem traceAll_cmdOk_portIter (w : World) (k : Nat) (port : Int) :
    TraceAll (CmdOkP w) (portIter w k port) := by
  induction k generalizing port with
  | zero => exact TraceAll.fail _
  | succ k ih =>
    simp only [portIter]
    apply TraceAll.bind_all (traceAll_cmdOk_listen w port)
    intro addr
    split
    · exact TraceAll.fail _
    · split
      · exact TraceAll.pure _
      · exact TraceAll.bind_all (traceAll_cmdOk_sleep w 1) (fun _ => ih 0)

theorem traceAll_cmdOk_getPort (w : World) (port : Int) :
    TraceAll (CmdOkP w) (getAvailableTCPPort w port) :=
  traceAll_cmdOk_portIter w 11 port

theorem okTrace_setPortForwarding (w : World) (d : DriverCfg)
    (interfaceNum : Nat) (mapName protocol : String)
    (guestPort desiredHostPort : Int) :
    OkTrace (CmdOkP w)
      (setPortForwarding w d interfaceNum mapName protocol guestPort
        desiredHostPort) := by
  unfold setPortForwarding
  apply OkTrace.bind_ok (traceAll_cmdOk_getPort w desiredHostPort).toOkTrace
  intro p
  apply OkTrace.bind_ok (traceAll_cmdOk_vbmDiscard w _).toOkTrace
  intro u
  apply OkTrace.bind_ok (okTrace_vbmRun w _)
  intro u2
  exact (TraceAll.pure _).toOkTrace

theorem okTrace_setupHostOnly (w : World) (d : DriverCfg) :
    OkTrace (CmdOkP w) (setupHostOnlyNetwork w d) := by
  unfold setupHostOnlyNetwork
  split
  · exact (TraceAll.fail _).toOkTrace
  · next ipNet heq =>
    apply OkTrace.bind_ok
      (traceAll_cmdOk_getOrCreate w ipNet.1 ipNet.2.mask).toOkTrace
    intro adapter
    apply OkTrace.bind_ok (traceAll_cmdOk_removeOrphans w).toOkTrace
    intro u
    apply OkTrace.bind_ok (traceAll_cmdOk_getRandomIP w ipNet.1).toOkTrace
    intro dhcpAddr
    apply OkTrace.bind_ok (traceAll_cmdOk_addDHCP w _ _).toOkTrace
    intro u2
    apply OkTrace.bind_ok (okTrace_vbmRun w _)
    intro u3
    exact (TraceAll.pure _).toOkTrace

theorem okTrace_stopLoop (w : World) (d : DriverCfg) (fuel : Nat) :
    OkTrace (CmdOkP w) (stopLoop w d fuel) := by
  induction fuel with
  | zero => exact (TraceAll.fail _).toOkTrace
  | succ fuel ih =>
    simp only [stopLoop]
    apply OkTrace.bind_ok (okTrace_getState w d)
    intro s
    split
    · exact OkTrace.bind_ok (traceAll_cmdOk_sleep w second).toOkTrace (fun _ => ih)
    · exact (TraceAll.pure _).toOkTrace

theorem okTrace_stop (w : World) (d : DriverCfg) (fuel : Nat) :
    OkTrace (CmdOkP w) (Stop w d fuel) := by
  unfold Stop
  apply OkTrace.bind_ok (okTrace_getState w d)
  intro s
  apply OkTrace.bind_ok
  · split
    · exact okTrace_vbmRun w _
    · exact (TraceAll.pure _).toOkTrace
  · intro u
    exact OkTrace.bind_ok (okTrace_vbmRun w _) (fun _ => okTrace_stopLoop w d fuel)

theorem okTrace_kill (w : World) (d : DriverCfg) :
    OkTrace (CmdOkP w) (Kill w d) :=
  okTrace_vbmRun w _

theorem okTrace_restart (w : World) (d : DriverCfg) :
    OkTrace (CmdOkP w) (Restart w d) := by
  unfold Restart
  exact OkTrace.bind_ok (okTrace_vbmRun w _)
    (fun _ => (traceAll_cmdOk_waitIP w).toOkTrace)

theorem okTrace_removeRest (w : World) (d : DriverCfg) (fuel : Nat)
    (s : VMState) : OkTrace (CmdOkP w) (removeRest w d fuel s) := by
  unfold removeRest
  apply OkTrace.bind_ok
  · split
    · exact okTrace_stop w d fuel
    · split
      · exact okTrace_kill w d
      · exact (TraceAll.pure _).toOkTrace
  · intro u
    exact OkTrace.bind_ok (traceAll_cmdOk_sleep w second).toOkTrace
      (fun _ => okTrace_vbmRun w _)

theorem okTrace_startTransition (w : World) (d : DriverCfg) (s : VMState) :
    OkTrace (CmdOkP w) (startTransition w d s) := by
  unfold startTransition
  split
  · exact OkTrace.bind_ok
      (okTrace_setPortForwarding w d 1 "ssh" "tcp" 22 d.sshPort)
      (fun _ => (okTrace_vbmRun w _).wrapErr_ok)
  · split
    · exact okTrace_vbmRun w _
    · exact (TraceAll.pure _).toOkTrace

theorem okTrace_startRepair (w : World) (d : DriverCfg) (fuel : Nat)
    (adapter : HostOnlyNetwork) :
    OkTrace (CmdOkP w) (startRepair w d fuel adapter) := by
  unfold startRepair
  apply OkTrace.bind_ok (okTrace_stop w d fuel)
  intro u1
  apply OkTrace.bind_ok (traceAll_cmdOk_sleep w _).toOkTrace
  intro u2
  apply OkTrace.bind_ok (traceAll_cmdOk_saveIPv4 w adapter).toOkTrace
  intro u3
  apply OkTrace.bind_ok (traceAll_cmdOk_sleep w _).toOkTrace
  intro u4
  apply OkTrace.bind_ok (okTrace_vbmRun w _).wrapErr_ok
  intro u5
  exact (traceAll_cmdOk_waitIP w).toOkTrace

theorem okTrace_startValidate (w : World) (d : DriverCfg) (fuel : Nat)
    (adapter : HostOnlyNetwork) :
    OkTrace (CmdOkP w) (startValidate w d fuel adapter) := by
  unfold startValidate
  apply OkTrace.bind_ok (traceAll_cmdOk_listIfs w).toOkTrace
  intro nets
  split
  · exact (TraceAll.fail _).toOkTrace
  · split
    · exact (TraceAll.pure _).toOkTrace
    · exact okTrace_startRepair w d fuel adapter

theorem okTrace_startTail (w : World) (d : DriverCfg) (fuel : Nat)
    (adapterOpt : Option HostOnlyNetwork) :
    OkTrace (CmdOkP w) (startTail w d fuel adapterOpt) := by
  unfold startTail
  apply OkTrace.bind_ok (okTrace_cmdOk_isVTX w).wrapErr_ok
  intro vtx
  apply OkTrace.bind_ok
  · split
    · exact (TraceAll.fail _).toOkTrace
    · exact (TraceAll.pure _).toOkTrace
  · intro u
    apply OkTrace.bind_ok (traceAll_cmdOk_waitIP w).toOkTrace
    intro u2
    split
    · exact (TraceAll.pure _).toOkTrace
    · exact okTrace_startValidate w d fuel _

theorem okTrace_start (w : World) (d : DriverCfg) (fuel : Nat) :
    OkTrace (CmdOkP w) (Start w d fuel) := by
  unfold Start
  apply OkTrace.bind_ok (okTrace_getState w d)
  intro s
  apply OkTrace.bind_ok
  · split
    · exact OkTrace.bind_ok (okTrace_setupHostOnly w d).wrapErr_ok
        (fun a => (TraceAll.pure _).toOkTrace)
    · exact (TraceAll.pure _).toOkTrace
  · intro adapterOpt
    exact OkTrace.bind_ok (okTrace_startTransition w d s)
      (fun _ => okTrace_startTail w d fuel adapterOpt)

theorem okTrace_createImport (w : World) (d : DriverCfg) :
    OkTrace (CmdOkP w) (createImport w d) := by
  unfold createImport
  apply OkTrace.bind_ok (traceAll_cmdOk_vbmDiscard w _).toOkTrace
  intro u0
  apply OkTrace.bind_ok (traceAll_cmdOk_vmDiskPath w _).toOkTrace
  intro srcDisk
  apply OkTrace.bind_ok
  · apply OkTrace.bind_ok (traceAll_cmdOk_stat w _).toOkTrace
    intro st
    split
    · exact (TraceAll.pure _).toOkTrace
    · exact (TraceAll.fail _).toOkTrace
    · exact (TraceAll.fail _).toOkTrace
  · intro u1
    apply OkTrace.bind_ok (okTrace_vbmRun w _)
    intro u2
    apply OkTrace.bind_ok (traceAll_cmdOk_vmInfo w _).toOkTrace
    intro info
    apply OkTrace.bind_ok (traceAll_cmdOk_copyFile w).toOkTrace
    intro u3
    exact (TraceAll.pure _).toOkTrace

theorem okTrace_createShare (w : World) (d : DriverCfg) :
    OkTrace (CmdOkP w) (createShare w d) := by
  unfold createShare
  split
  · apply OkTrace.bind_ok (traceAll_cmdOk_stat w _).toOkTrace
    intro st
    split
    · exact (TraceAll.fail _).toOkTrace
    · exact (TraceAll.pure _).toOkTrace
    · exact OkTrace.bind_ok (okTrace_vbmRun w _) (fun _ => okTrace_vbmRun w _)
  · exact (TraceAll.pure _).toOkTrace

theorem okTrace_createVM (w : World) (d : DriverCfg) :
    OkTrace (CmdOkP w) (CreateVM w d) := by
  unfold CreateVM
  apply OkTrace.bind_ok (traceAll_cmdOk_copyIso w).toOkTrace
  intro u0
  apply OkTrace.bind_ok
  · split
    · exact okTrace_createImport w d
    · apply OkTrace.bind_ok (traceAll_cmdOk_genKey w).toOkTrace
      intro u1
      apply OkTrace.bind_ok (traceAll_cmdOk_createDisk w).toOkTrace
      intro u2
      exact (TraceAll.pure _).toOkTrace
  · intro cpuMem
    apply OkTrace.bind_ok (okTrace_vbmRun w _)
    intro u1
    apply OkTrace.bind_ok (okTrace_vbmRun w _)
    intro u2
    apply OkTrace.bind_ok (okTrace_vbmRun w _)
    intro u3
    apply OkTrace.bind_ok (okTrace_vbmRun w _)
    intro u4
    apply OkTrace.bind_ok (okTrace_vbmRun w _)
    intro u5
    apply OkTrace.bind_ok (okTrace_vbmRun w _)
    intro u6
    apply OkTrace.bind_ok (okTrace_vbmRun w _)
    intro u7
    apply OkTrace.bind_ok (okTrace_vbmRun w _)
    intro u8
    exact okTrace_createShare w d

/-- The exemption of Remove: an entry is either harmless, or it is the
state query of a machine the hypervisor does not know, recognized by its
stderr. -/
def RemExempt (w : World) (d : DriverCfg) (e : Entry) : Prop :=
  CmdOkP w e ∨
    ∃ i, e = Entry.cmd i ["showvminfo", d.machineName, "--machinereadable"] ∧
      machineNotFoundStderr (w.exec i).stderr = true

theorem remove_trace_exempt (w : World) (d : DriverCfg) (fuel n : Nat)
    (a : Unit) (ha : (Remove w d fuel n).1 = Except.ok a) :
    ∀ e ∈ (Remove w d fuel n).2.2, RemExempt w d e := by
  intro e he
  unfold Remove at ha he
  by_cases hok : (w.exec n).ok
  · have hg : GetState w d n =
        (Except.ok (parseVMState (w.exec n).stdout), n + 1,
         [Entry.cmd n ["showvminfo", d.machineName, "--machinereadable"]]) := by
      simp [GetState, hok]
    rw [hg] at ha he
    simp only at ha he
    rcases hrr : removeRest w d fuel (parseVMState (w.exec n).stdout) (n + 1)
      with ⟨r2, n2, t2⟩
    rw [hrr] at ha he
    simp only at ha he
    rw [List.mem_append, List.mem_singleton] at he
    cases he with
    | inl h1 =>
      subst h1
      left
      exact hok
    | inr h2 =>
      left
      have hp := okTrace_removeRest w d fuel (parseVMState (w.exec n).stdout)
        (n + 1) a
      rw [hrr] at hp
      exact hp ha e h2
  · by_cases hm : machineNotFoundStderr (w.exec n).stderr
    · have hg : GetState w d n =
          (Except.error GoErr.machineNotExist, n + 1,
           [Entry.cmd n ["showvminfo", d.machineName, "--machinereadable"]]) := by
        simp [GetState, hok, hm]
      rw [hg] at he
      simp only [List.mem_singleton] at he
      subst he
      right
      exact ⟨n, rfl, by simp [hm]⟩
    · have hg : GetState w d n =
          (Except.error (GoErr.cli (w.exec n).stderr), n + 1,
           [Entry.cmd n ["showvminfo", d.machineName, "--machinereadable"]]) := by
        simp [GetState, hok, hm]
      rw [hg] at ha
      simp only at ha
      cases ha


/-! ## Generic traversal lemmas: the entry kinds an operation can record -/

theorem traceAll_getStateP (w : World) (d : DriverCfg) (P : Entry → Prop)
    (hcmd : ∀ i,
      P (Entry.cmd i ["showvminfo", d.machineName, "--machinereadable"])) :
    TraceAll P (GetState w d) :=
  TraceAll.single_all (GetState w d) _ (getState_trace w d) hcmd

theorem traceAll_randomLoopP (w : World) (base : IPv4) (P : Entry → Prop)
    (hrand : ∀ i, P (Entry.randomDraw i 25)) (k : Nat) :
    TraceAll P (randomLoop w base k) := by
  induction k with
  | zero => exact TraceAll.pure _
  | succ k ih =>
    simp only [randomLoop]
    apply TraceAll.bind_all
      (TraceAll.single_all _ _ (randomRun_trace w 25) hrand)
    intro m
    split
    · exact TraceAll.pure _
    · exact ih

theorem traceAll_getRandomIPP (w : World) (base : IPv4) (P : Entry → Prop)
    (hrand : ∀ i, P (Entry.randomDraw i 25)) :
    TraceAll P (getRandomIPinSubnet w base) := by
  unfold getRandomIPinSubnet
  apply TraceAll.bind_all (traceAll_randomLoopP w base P hrand 5)
  intro r
  split
  · exact TraceAll.pure _
  · exact TraceAll.fail _

theorem traceAll_portIterP (w : World) (P : Entry → Prop)
    (hlisten : ∀ i p, P (Entry.listen i p)) (hsleep : P (Entry.sleep 1)) :
    ∀ k port, TraceAll P (portIter w k port) := by
  intro k
  induction k with
  | zero => intro port; exact TraceAll.fail _
  | succ k ih =>
    intro port
    simp only [portIter]
    apply TraceAll.bind_all
      (TraceAll.single_all _ _ (listenRun_trace w port) (fun i => hlisten i port))
    intro addr
    split
    · exact TraceAll.fail _
    · split
      · exact TraceAll.pure _
      · exact TraceAll.bind_all
          (TraceAll.single_all _ _ (sleepRun_trace 1) (fun _ => hsleep))
          (fun _ => ih 0)

theorem traceAll_setPFP (w : World) (d : DriverCfg) (interfaceNum : Nat)
    (mapName protocol : String) (guestPort desiredHostPort : Int)
    (P : Entry → Prop)
    (hlisten : ∀ i p, P (Entry.listen i p)) (hsleep : P (Entry.sleep 1))
    (hign : ∀ i args, P (Entry.cmdIgnored i args))
    (hcmd : ∀ i args, P (Entry.cmd i args)) :
    TraceAll P
      (setPortForwarding w d interfaceNum mapName protocol guestPort
        desiredHostPort) := by
  unfold setPortForwarding
  apply TraceAll.bind_all (traceAll_portIterP w P hlisten hsleep 11 desiredHostPort)
  intro p
  apply TraceAll.bind_all
    (TraceAll.single_all _ _ (vbmDiscard_trace w _) (fun i => hign i _))
  intro u
  apply TraceAll.bind_all
    (TraceAll.single_all _ _ (vbmRun_trace w _) (fun i => hcmd i _))
  intro u2
  exact TraceAll.pure _

theorem traceAll_setupP (w : World) (d : DriverCfg) (P : Entry → Prop)
    (hgoc : ∀ i ip mask, P (Entry.getOrCreate i ip mask))
    (horph : ∀ i, P (Entry.removeOrphans i))
    (hrand : ∀ i, P (Entry.randomDraw i 25))
    (hdhcp : ∀ i nm cfg, P (Entry.addDHCP i nm cfg))
    (hcmd : ∀ i args, P (Entry.cmd i args)) :
    TraceAll P (setupHostOnlyNetwork w d) := by
  unfold setupHostOnlyNetwork
  split
  · exact TraceAll.fail _
  · next ipNet heq =>
    apply TraceAll.bind_all
      (TraceAll.single_all _ _ (getOrCreateRun_trace w ipNet.1 ipNet.2.mask)
        (fun i => hgoc i _ _))
    intro adapter
    apply TraceAll.bind_all
      (TraceAll.single_all _ _ (removeOrphansRun_trace w) horph)
    intro u
    apply TraceAll.bind_all (traceAll_getRandomIPP w ipNet.1 P hrand)
    intro dhcpAddr
    apply TraceAll.bind_all
      (TraceAll.single_all _ _ (addDHCPRun_trace w _ _) (fun i => hdhcp i _ _))
    intro u2
    apply TraceAll.bind_all
      (TraceAll.single_all _ _ (vbmRun_trace w _) (fun i => hcmd i _))
    intro u3
    exact TraceAll.pure _

theorem traceAll_isVTXP (w : World) (P : Entry → Prop)
    (hlogs : ∀ i, P (Entry.readLogs i)) :
    TraceAll P (IsVTXDisabledInTheVM w) := by
  unfold IsVTXDisabledInTheVM
  exact TraceAll.bind_all (TraceAll.single_all _ _ (readLogsRun_trace w) hlogs)
    (fun _ => TraceAll.pure _)

theorem traceAll_stopLoopP (w : World) (d : DriverCfg) (P : Entry → Prop)
    (hcmd : ∀ i args, P (Entry.cmd i args))
    (hsleep : ∀ ns, P (Entry.sleep ns)) (fuel : Nat) :
    TraceAll P (stopLoop w d fuel) := by
  induction fuel with
  | zero => exact TraceAll.fail _
  | succ fuel ih =>
    simp only [stopLoop]
    apply TraceAll.bind_all (traceAll_getStateP w d P (fun i => hcmd i _))
    intro s
    split
    · exact TraceAll.bind_all
        (TraceAll.single_all _ _ (sleepRun_trace second) (fun _ => hsleep _))
        (fun _ => ih)
    · exact TraceAll.pure _

theorem traceAll_stopP (w : World) (d : DriverCfg) (fuel : Nat)
    (P : Entry → Prop) (hcmd : ∀ i args, P (Entry.cmd i args))
    (hsleep : ∀ ns, P (Entry.sleep ns)) :
    TraceAll P (Stop w d fuel) := by
  unfold Stop
  apply TraceAll.bind_all (traceAll_getStateP w d P (fun i => hcmd i _))
  intro s
  apply TraceAll.bind_all
  · split
    · exact TraceAll.single_all _ _ (vbmRun_trace w _) (fun i => hcmd i _)
    · exact TraceAll.pure _
  · intro u
    exact TraceAll.bind_all
      (TraceAll.single_all _ _ (vbmRun_trace w _) (fun i => hcmd i _))
      (fun _ => traceAll_stopLoopP w d P hcmd hsleep fuel)

theorem traceAll_startRepairP (w : World) (d : DriverCfg) (fuel : Nat)
    (adapter : HostOnlyNetwork) (P : Entry → Prop)
    (hcmd : ∀ i args, P (Entry.cmd i args))
    (hsleep : ∀ ns, P (Entry.sleep ns))
    (hsave : ∀ i, P (Entry.saveAdapterIPv4 i adapter))
    (hwait : ∀ i, P (Entry.waitIP i)) :
    TraceAll P (startRepair w d fuel adapter) := by
  unfold startRepair
  apply TraceAll.bind_all (traceAll_stopP w d fuel P hcmd hsleep)
  intro u1
  apply TraceAll.bind_all
    (TraceAll.single_all _ _ (sleepRun_trace _) (fun _ => hsleep _))
  intro u2
  apply TraceAll.bind_all
    (TraceAll.single_all _ _ (saveIPv4Run_trace w adapter) hsave)
  intro u3
  apply TraceAll.bind_all
    (TraceAll.single_all _ _ (sleepRun_trace _) (fun _ => hsleep _))
  intro u4
  apply TraceAll.bind_all
    (TraceAll.wrapErr_all (TraceAll.single_all _ _ (vbmRun_trace w _)
      (fun i => hcmd i _)))
  intro u5
  exact TraceAll.single_all _ _ (waitIPRun_trace w) hwait

theorem traceAll_startTransitionP (w : World) (d : DriverCfg) (s : VMState)
    (P : Entry → Prop)
    (hlisten : ∀ i p, P (Entry.listen i p)) (hsleep : P (Entry.sleep 1))
    (hign : ∀ i args, P (Entry.cmdIgnored i args))
    (hcmd : ∀ i args, P (Entry.cmd i args)) :
    TraceAll P (startTransition w d s) := by
  unfold startTransition
  split
  · apply TraceAll.bind_all
      (traceAll_setPFP w d 1 "ssh" "tcp" 22 d.sshPort P hlisten hsleep hign hcmd)
    intro u
    exact TraceAll.wrapErr_all
      (TraceAll.single_all _ _ (vbmRun_trace w _) (fun i => hcmd i _))
  · split
    · exact TraceAll.single_all _ _ (vbmRun_trace w _) (fun i => hcmd i _)
    · exact TraceAll.pure _

theorem traceAll_startTailNoneP (w : World) (d : DriverCfg) (fuel : Nat)
    (P : Entry → Prop)
    (hlogs : ∀ i, P (Entry.readLogs i)) (hwait : ∀ i, P (Entry.waitIP i)) :
    TraceAll P (startTail w d fuel Option.none) := by
  unfold startTail
  apply TraceAll.bind_all (TraceAll.wrapErr_all (traceAll_isVTXP w P hlogs))
  intro vtx
  apply TraceAll.bind_all
  · split
    · exact TraceAll.fail _
    · exact TraceAll.pure _
  · intro u
    apply TraceAll.bind_all (TraceAll.single_all _ _ (waitIPRun_trace w) hwait)
    intro u2
    exact TraceAll.pure _

/-! ## At most one repair per Start call -/

/-- Tester for the repair action entry. -/
def isSaveEntry : Entry → Bool
  | Entry.saveAdapterIPv4 _ _ => true
  | _ => false

/-- Tester for the adapter-list validation entry. -/
def isListIfsEntry : Entry → Bool
  | Entry.listIfs _ => true
  | _ => false

/-- An entry that is not the repair action. -/
def NoSaveP (e : Entry) : Prop := isSaveEntry e = false

/-- An entry that is not an adapter-list query. -/
def NoListIfsP (e : Entry) : Prop := isListIfsEntry e = false

theorem TraceCount.bind0 {p : Entry → Bool} {x : DM α} {f : α → DM β}
    {k : Nat} (hx : TraceCount p x 0) (hf : ∀ a, TraceCount p (f a) k) :
    TraceCount p (DM.bind x f) k := by
  have h := TraceCount.bind_count hx hf
  rwa [Nat.zero_add] at h

theorem TraceCount.bindR {p : Entry → Bool} {x : DM α} {f : α → DM β}
    {k : Nat} (hx : TraceCount p x k) (hf : ∀ a, TraceCount p (f a) 0) :
    TraceCount p (DM.bind x f) k := by
  have h := TraceCount.bind_count hx hf
  rwa [Nat.add_zero] at h

theorem TraceCount.one_single {p : Entry → Bool} (x : DM α)
    (mk : Nat → Entry) (ht : ∀ n, (x n).2.2 = [mk n]) : TraceCount p x 1 := by
  intro n
  rw [ht n]
  simp [List.countP_cons]
  split <;> omega

theorem traceCount_save_repair (w : World) (d : DriverCfg) (fuel : Nat)
    (adapter : HostOnlyNetwork) :
    TraceCount isSaveEntry (startRepair w d fuel adapter) 1 := by
  unfold startRepair
  apply TraceCount.bind0
  · exact TraceCount.zero_of_all
      (traceAll_stopP w d fuel _ (fun _ _ => rfl) (fun _ => rfl))
  intro u1
  apply TraceCount.bind0
  · exact TraceCount.zero_of_all
      (TraceAll.single_all _ _ (sleepRun_trace _) (fun _ => rfl))
  intro u2
  apply TraceCount.bindR
  · exact TraceCount.one_single _ _ (saveIPv4Run_trace w adapter)
  intro u3
  apply TraceCount.bind0
  · exact TraceCount.zero_of_all
      (TraceAll.single_all _ _ (sleepRun_trace _) (fun _ => rfl))
  intro u4
  apply TraceCount.bind0
  · exact TraceCount.zero_of_all
      (TraceAll.wrapErr_all (TraceAll.single_all _ _ (vbmRun_trace w _)
        (fun _ => rfl)))
  intro u5
  exact TraceCount.zero_of_all
    (TraceAll.single_all _ _ (waitIPRun_trace w) (fun _ => rfl))

theorem traceCount_save_validate (w : World) (d : DriverCfg) (fuel : Nat)
    (adapter : HostOnlyNetwork) :
    TraceCount isSaveEntry (startValidate w d fuel adapter) 1 := by
  unfold startValidate
  apply TraceCount.bind0
  · exact TraceCount.zero_of_all
      (TraceAll.single_all _ _ (listIfsRun_trace w) (fun _ => rfl))
  intro nets
  split
  · exact TraceCount.zero_of_all (TraceAll.fail _) |>.mono_le (Nat.zero_le 1)
  · split
    · exact TraceCount.zero_of_all (TraceAll.pure _) |>.mono_le (Nat.zero_le 1)
    · exact traceCount_save_repair w d fuel adapter

theorem traceCount_save_tail (w : World) (d : DriverCfg) (fuel : Nat)
    (adapterOpt : Option HostOnlyNetwork) :
    TraceCount isSaveEntry (startTail w d fuel adapterOpt) 1 := by
  unfold startTail
  apply TraceCount.bind0
  · exact TraceCount.zero_of_all
      (TraceAll.wrapErr_all (traceAll_isVTXP w _ (fun _ => rfl)))
  intro vtx
  apply TraceCount.bind0
  · refine TraceCount.zero_of_all ?_
    split
    · exact TraceAll.fail _
    · exact TraceAll.pure _
  intro u
  apply TraceCount.bind0
  · exact TraceCount.zero_of_all
      (TraceAll.single_all _ _ (waitIPRun_trace w) (fun _ => rfl))
  intro u2
  split
  · exact TraceCount.zero_of_all (TraceAll.pure _) |>.mono_le (Nat.zero_le 1)
  · exact traceCount_save_validate w d fuel _

theorem traceCount_save_start (w : World) (d : DriverCfg) (fuel : Nat) :
    TraceCount isSaveEntry (Start w d fuel) 1 := by
  unfold Start
  apply TraceCount.bind0
  · exact TraceCount.zero_of_all (traceAll_getStateP w d _ (fun _ => rfl))
  intro s
  apply TraceCount.bind0
  · refine TraceCount.zero_of_all ?_
    split
    · apply TraceAll.bind_all
        (TraceAll.wrapErr_all (traceAll_setupP w d
          (fun e => isSaveEntry e = false) (fun _ _ _ => rfl)
          (fun _ => rfl) (fun _ => rfl) (fun _ _ _ => rfl) (fun _ _ => rfl)))
      intro a
      exact TraceAll.pure _
    · exact TraceAll.pure _
  intro adapterOpt
  apply TraceCount.bind0
  · exact TraceCount.zero_of_all
      (traceAll_startTransitionP w d s (fun e => isSaveEntry e = false)
        (fun _ _ => rfl) rfl (fun _ _ => rfl) (fun _ _ => rfl))
  intro u
  exact traceCount_save_tail w d fuel adapterOpt

theorem traceCount_listIfs_repair (w : World) (d : DriverCfg) (fuel : Nat)
    (adapter : HostOnlyNetwork) :
    TraceCount isListIfsEntry (startRepair w d fuel adapter) 0 := by
  refine TraceCount.zero_of_all ?_
  exact traceAll_startRepairP w d fuel adapter _ (fun _ _ => rfl)
    (fun _ => rfl) (fun _ => rfl) (fun _ => rfl)

theorem traceCount_listIfs_validate (w : World) (d : DriverCfg) (fuel : Nat)
    (adapter : HostOnlyNetwork) :
    TraceCount isListIfsEntry (startValidate w d fuel adapter) 1 := by
  unfold startValidate
  apply TraceCount.bindR
  · exact TraceCount.one_single _ _ (listIfsRun_trace w)
  intro nets
  split
  · exact TraceCount.zero_of_all (TraceAll.fail _)
  · split
    · exact TraceCount.zero_of_all (TraceAll.pure _)
    · exact traceCount_listIfs_repair w d fuel adapter

theorem traceCount_listIfs_start (w : World) (d : DriverCfg) (fuel : Nat) :
    TraceCount isListIfsEntry (Start w d fuel) 1 := by
  unfold Start
  apply TraceCount.bind0
  · exact TraceCount.zero_of_all (traceAll_getStateP w d _ (fun _ => rfl))
  intro s
  apply TraceCount.bind0
  · refine TraceCount.zero_of_all ?_
    split
    · apply TraceAll.bind_all
        (TraceAll.wrapErr_all (traceAll_setupP w d
          (fun e => isListIfsEntry e = false) (fun _ _ _ => rfl)
          (fun _ => rfl) (fun _ => rfl) (fun _ _ _ => rfl) (fun _ _ => rfl)))
      intro a
      exact TraceAll.pure _
    · exact TraceAll.pure _
  intro adapterOpt
  apply TraceCount.bind0
  · exact TraceCount.zero_of_all
      (traceAll_startTransitionP w d s (fun e => isListIfsEntry e = false)
        (fun _ _ => rfl) rfl (fun _ _ => rfl) (fun _ _ => rfl))
  intro u
  unfold startTail
  apply TraceCount.bind0
  · exact TraceCount.zero_of_all
      (TraceAll.wrapErr_all (traceAll_isVTXP w _ (fun _ => rfl)))
  intro vtx
  apply TraceCount.bind0
  · refine TraceCount.zero_of_all ?_
    split
    · exact TraceAll.fail _
    · exact TraceAll.pure _
  intro u2
  apply TraceCount.bind0
  · exact TraceCount.zero_of_all
      (TraceAll.single_all _ _ (waitIPRun_trace w) (fun _ => rfl))
  intro u3
  split
  · exact TraceCount.zero_of_all (TraceAll.pure _) |>.mono_le (Nat.zero_le 1)
  · exact traceCount_listIfs_validate w d fuel _
/-- The evidence guarding the repair path: an adapter-list query in the
trace answered with a list in which no adapter matches the IP and mask of
the configured CIDR. -/
def RepairEvidence (w : World) (d : DriverCfg) (t : List Entry) : Prop :=
  ∃ i nets ip network,
    Entry.listIfs i ∈ t ∧ w.listIfsRes i = Except.ok nets ∧
    parseAndValidateCIDR d.hostOnlyCIDR = Except.ok (ip, network) ∧
    getHostOnlyAdapter nets ip network.mask = Option.none

theorem RepairEvidence.mono_sub {w : World} {d : DriverCfg}
    {t t2 : List Entry} (h : RepairEvidence w d t)
    (hsub : ∀ e ∈ t, e ∈ t2) : RepairEvidence w d t2 := by
  obtain ⟨i, nets, ip, network, hm, h1, h2, h3⟩ := h
  exact ⟨i, nets, ip, network, hsub _ hm, h1, h2, h3⟩

theorem no_save_of_traceAll {x : DM α} (hall : TraceAll NoSaveP x)
    {n i : Nat} {a : HostOnlyNetwork}
    (h : Entry.saveAdapterIPv4 i a ∈ (x n).2.2) : False := by
  have hP := hall n _ h
  simp [NoSaveP, isSaveEntry] at hP

theorem validate_save_evidence (w : World) (d : DriverCfg) (fuel : Nat)
    (adapter : HostOnlyNetwork) (n i : Nat) (a : HostOnlyNetwork)
    (he : Entry.saveAdapterIPv4 i a ∈ (startValidate w d fuel adapter n).2.2) :
    RepairEvidence w d ((startValidate w d fuel adapter n).2.2) := by
  unfold startValidate at he ⊢
  rcases DM.bind_trace_cases he with h | ⟨nets, hnets, h⟩
  · rw [listIfsRun_trace, List.mem_singleton] at h
    exact Entry.noConfusion h
  · rcases hp : parseAndValidateCIDR d.hostOnlyCIDR with e0 | ipNet
    · rw [hp] at h
      exact absurd h (List.not_mem_nil _)
    · rw [hp] at h
      rcases hg : getHostOnlyAdapter nets ipNet.1 ipNet.2.mask with _ | a2
      · refine ⟨n, nets, ipNet.1, ipNet.2, ?_, hnets, by rw [hp], hg⟩
        apply DM.bind_mem_left
        rw [listIfsRun_trace, List.mem_singleton]
      · have h2 : Entry.saveAdapterIPv4 i a ∈
            ((match getHostOnlyAdapter nets ipNet.1 ipNet.2.mask with
              | some _ => DM.pure ()
              | Option.none => startRepair w d fuel adapter)
             ((listIfsRun w n).2.1)).2.2 := h
        rw [hg] at h2
        exact absurd h2 (List.not_mem_nil _)

theorem tail_save_evidence (w : World) (d : DriverCfg) (fuel : Nat)
    (a2 : HostOnlyNetwork) (n i : Nat) (a : HostOnlyNetwork)
    (he : Entry.saveAdapterIPv4 i a ∈
      (startTail w d fuel (some a2) n).2.2) :
    RepairEvidence w d ((startTail w d fuel (some a2) n).2.2) := by
  unfold startTail at he ⊢
  rcases DM.bind_trace_cases he with h | ⟨vtx, hvtx, h⟩
  · exact absurd h
      (fun hm => no_save_of_traceAll
        (TraceAll.wrapErr_all (traceAll_isVTXP w NoSaveP (fun _ => rfl))) hm)
  · rcases DM.bind_trace_cases h with h2 | ⟨u, hu, h2⟩
    · cases vtx <;> simp [DM.fail, DM.pure] at h2
    · rcases DM.bind_trace_cases h2 with h3 | ⟨u2, hu2, h3⟩
      · rw [waitIPRun_trace, List.mem_singleton] at h3
        exact Entry.noConfusion h3
      · have hev := validate_save_evidence w d fuel a2 _ i a h3
        apply RepairEvidence.mono_sub hev
        intro e hme
        exact DM.bind_mem_right hvtx
          (DM.bind_mem_right hu (DM.bind_mem_right hu2 hme))

theorem start_save_shape (w : World) (d : DriverCfg) (fuel n i : Nat)
    (a : HostOnlyNetwork)
    (he : Entry.saveAdapterIPv4 i a ∈ (Start w d fuel n).2.2) :
    (GetState w d n).1 = Except.ok VMState.stopped ∧
      RepairEvidence w d ((Start w d fuel n).2.2) := by
  unfold Start at he ⊢
  rcases DM.bind_trace_cases he with h | ⟨s, hs, h⟩
  · exact absurd h
      (fun hm => no_save_of_traceAll
        (traceAll_getStateP w d NoSaveP (fun _ => rfl)) hm)
  · by_cases hst : s = VMState.stopped
    · subst hst
      refine ⟨hs, ?_⟩
      rw [if_pos rfl] at h
      rcases DM.bind_trace_cases h with h2 | ⟨aOpt, haOpt, h2⟩
      · exfalso
        rcases DM.bind_trace_cases h2 with h3 | ⟨a3, ha3, h3⟩
        · exact no_save_of_traceAll
            (TraceAll.wrapErr_all (traceAll_setupP w d NoSaveP
              (fun _ _ _ => rfl) (fun _ => rfl) (fun _ => rfl)
              (fun _ _ _ => rfl) (fun _ _ => rfl))) h3
        · exact absurd h3 (List.not_mem_nil _)
      · rcases DM.bind_trace_cases h2 with h3 | ⟨u, hu, h3⟩
        · exact absurd h3
            (fun hm => no_save_of_traceAll
              (traceAll_startTransitionP w d VMState.stopped NoSaveP
                (fun _ _ => rfl) rfl (fun _ _ => rfl) (fun _ _ => rfl)) hm)
        · rcases DM.bind_fst_ok haOpt with ⟨a3, hsetup, hpure⟩
          have haOpt2 : aOpt = some a3 := by
            have : (Except.ok (some a3) : Except GoErr (Option HostOnlyNetwork))
                = Except.ok aOpt := hpure
            injection this with h4
            exact h4.symm
          subst haOpt2
          have hev := tail_save_evidence w d fuel a3 _ i a h3
          apply RepairEvidence.mono_sub hev
          intro e hme
          exact DM.bind_mem_right hs (by
            rw [if_pos rfl]
            exact DM.bind_mem_right haOpt (DM.bind_mem_right hu hme))
    · exfalso
      rw [if_neg hst] at h
      rcases DM.bind_trace_cases h with h2 | ⟨aOpt, haOpt, h2⟩
      · exact absurd h2 (List.not_mem_nil _)
      · have haOpt2 : aOpt = Option.none := by
          have : (Except.ok (Option.none) :
              Except GoErr (Option HostOnlyNetwork)) = Except.ok aOpt := haOpt
          injection this with h4
          exact h4.symm
        subst haOpt2
        rcases DM.bind_trace_cases h2 with h3 | ⟨u, hu, h3⟩
        · exact absurd h3
            (fun hm => no_save_of_traceAll
              (traceAll_startTransitionP w d s NoSaveP
                (fun _ _ => rfl) rfl (fun _ _ => rfl) (fun _ _ => rfl)) hm)
        · exact absurd h3
            (fun hm => no_save_of_traceAll
              (traceAll_startTailNoneP w d fuel NoSaveP
                (fun _ => rfl) (fun _ => rfl)) hm)
/-! ## The per-state behavior of Start -/

/-- The entries that the port-forwarding installation can record: socket
probes, the one-nanosecond retry sleep, the discarded deletion of the
prior rule of the same name, and the installation of a rule on the first
NAT interface. -/
def SPFEntry (d : DriverCfg) : Entry → Prop
  | Entry.listen _ _ => True
  | Entry.sleep _ => True
  | Entry.cmdIgnored _ args =>
      args = ["modifyvm", d.machineName, natpfFlag 1, "delete", "ssh"]
  | Entry.cmd _ args =>
      ∃ r, args = ["modifyvm", d.machineName, natpfFlag 1, r]
  | _ => False

/-- The entries a Start on a paused machine can record: the state query,
the resume command, the log read and the IP wait — nothing else. -/
def pausedEntry (d : DriverCfg) : Entry → Prop
  | Entry.cmd _ args =>
      args = ["showvminfo", d.machineName, "--machinereadable"] ∨
      args = ["controlvm", d.machineName, "resume", "--type", "headless"]
  | Entry.readLogs _ => True
  | Entry.waitIP _ => True
  | _ => False

/-- The entries a Start on a saved machine can record: the state query,
the port-forwarding installation, the headless boot, the log read and the
IP wait — in particular no host-only adapter, DHCP or repair entry. -/
def savedEntry (d : DriverCfg) : Entry → Prop
  | Entry.cmd _ args =>
      args = ["showvminfo", d.machineName, "--machinereadable"] ∨
      args = ["startvm", d.machineName, "--type", "headless"] ∨
      ∃ r, args = ["modifyvm", d.machineName, natpfFlag 1, r]
  | Entry.cmdIgnored _ args =>
      args = ["modifyvm", d.machineName, natpfFlag 1, "delete", "ssh"]
  | Entry.listen _ _ => True
  | Entry.sleep _ => True
  | Entry.readLogs _ => True
  | Entry.waitIP _ => True
  | _ => False

/-- The entries a Start on a machine in any state other than stopped,
saved or paused can record: only the state query, the log read and the IP
wait — no transition command and no provisioning. -/
def inertEntry (d : DriverCfg) : Entry → Prop
  | Entry.cmd _ args =>
      args = ["showvminfo", d.machineName, "--machinereadable"]
  | Entry.readLogs _ => True
  | Entry.waitIP _ => True
  | _ => False

theorem TraceAll.mono_imp {P Q : Entry → Prop} {x : DM α}
    (h : ∀ e, Q e → P e) (hq : TraceAll Q x) : TraceAll P x :=
  fun n e he => h e (hq n e he)

theorem traceAll_spf_shape (w : World) (d : DriverCfg)
    (desiredHostPort : Int) :
    TraceAll (SPFEntry d)
      (setPortForwarding w d 1 "ssh" "tcp" 22 desiredHostPort) := by
  unfold setPortForwarding
  apply TraceAll.bind_all
    (traceAll_portIterP w (SPFEntry d) (fun _ _ => trivial) trivial 11
      desiredHostPort)
  intro p
  apply TraceAll.bind_all
    (@TraceAll.single_all _ (SPFEntry d) _ _ (vbmDiscard_trace w _)
      (fun _ => rfl))
  intro u
  apply TraceAll.bind_all
    (@TraceAll.single_all _ (SPFEntry d) _ _ (vbmRun_trace w _)
      (fun _ => ⟨_, rfl⟩))
  intro u2
  exact TraceAll.pure _

theorem spf_entry_saved (d : DriverCfg) :
    ∀ e, SPFEntry d e → savedEntry d e := by
  intro e hspf
  cases e with
  | listen i p => trivial
  | sleep ns => trivial
  | cmdIgnored i args => exact hspf
  | cmd i args => exact Or.inr (Or.inr hspf)
  | listIfs i => exact hspf.elim
  | getOrCreate i ip mask => exact hspf.elim
  | removeOrphans i => exact hspf.elim
  | addDHCP i a cfg => exact hspf.elim
  | saveAdapterIPv4 i a => exact hspf.elim
  | waitIP i => exact hspf.elim
  | readLogs i => exact hspf.elim
  | randomDraw i b => exact hspf.elim
  | copyIsoToMachineDir i => exact hspf.elim
  | generateSSHKey i => exact hspf.elim
  | createDiskImage i => exact hspf.elim
  | statPath i p => exact hspf.elim
  | queryVMDiskInfo i v => exact hspf.elim
  | queryVMInfo i v => exact hspf.elim
  | copyFile i => exact hspf.elim

theorem traceAll_transition_saved (w : World) (d : DriverCfg) :
    TraceAll (savedEntry d) (startTransition w d VMState.saved) := by
  have h : startTransition w d VMState.saved =
      DM.bind (setPortForwarding w d 1 "ssh" "tcp" 22 d.sshPort) fun _ =>
      DM.wrapErr "Unable to start the VM: "
        (vbmRun w ["startvm", d.machineName, "--type", "headless"]) := rfl
  rw [h]
  apply TraceAll.bind_all
  · exact TraceAll.mono_imp (spf_entry_saved d) (traceAll_spf_shape w d d.sshPort)
  · intro u
    exact TraceAll.wrapErr_all
      (@TraceAll.single_all _ (savedEntry d) _ _ (vbmRun_trace w _)
        (fun _ => Or.inr (Or.inl rfl)))

theorem start_paused_entries (w : World) (d : DriverCfg) (fuel n : Nat)
    (hs : (GetState w d n).1 = Except.ok VMState.paused) :
    ∀ e ∈ (Start w d fuel n).2.2, pausedEntry d e := by
  intro e he
  unfold Start at he
  rcases DM.bind_trace_cases he with h | ⟨s, hs2, h⟩
  · rw [getState_trace, List.mem_singleton] at h
    subst h
    exact Or.inl rfl
  · have hsp : s = VMState.paused := by
      rw [hs] at hs2
      injection hs2 with h4
      exact h4.symm
    subst hsp
    rw [if_neg (by decide : ¬ (VMState.paused = VMState.stopped))] at h
    rcases DM.bind_trace_cases h with h2 | ⟨aOpt, haOpt, h2⟩
    · exact absurd h2 (List.not_mem_nil _)
    · have haOpt2 : aOpt = Option.none := by
        have h5 : (Except.ok (Option.none) :
            Except GoErr (Option HostOnlyNetwork)) = Except.ok aOpt := haOpt
        injection h5 with h6
        exact h6.symm
      subst haOpt2
      rcases DM.bind_trace_cases h2 with h3 | ⟨u, hu, h3⟩
      · have htr : (startTransition w d VMState.paused
            ((DM.pure (Option.none) ((GetState w d n).2.1) :
              Except GoErr (Option HostOnlyNetwork) × Nat × List Entry)).2.1).2.2 =
            [Entry.cmd ((GetState w d n).2.1)
              ["controlvm", d.machineName, "resume", "--type", "headless"]] := rfl
        rw [htr, List.mem_singleton] at h3
        subst h3
        exact Or.inr rfl
      · exact traceAll_startTailNoneP w d fuel (pausedEntry d)
          (fun _ => trivial) (fun _ => trivial) _ e h3

theorem start_inert_entries (w : World) (d : DriverCfg) (fuel n : Nat)
    (s : VMState) (hs : (GetState w d n).1 = Except.ok s)
    (h1 : s ≠ VMState.stopped) (h2 : s ≠ VMState.saved)
    (h3 : s ≠ VMState.paused) :
    ∀ e ∈ (Start w d fuel n).2.2, inertEntry d e := by
  intro e he
  unfold Start at he
  rcases DM.bind_trace_cases he with h | ⟨s2, hs2, h⟩
  · rw [getState_trace, List.mem_singleton] at h
    subst h
    rfl
  · have hss : s2 = s := by
      rw [hs] at hs2
      injection hs2 with h4
      exact h4.symm
    subst hss
    rw [if_neg h1] at h
    rcases DM.bind_trace_cases h with h4 | ⟨aOpt, haOpt, h4⟩
    · exact absurd h4 (List.not_mem_nil _)
    · have haOpt2 : aOpt = Option.none := by
        have h5 : (Except.ok (Option.none) :
            Except GoErr (Option HostOnlyNetwork)) = Except.ok aOpt := haOpt
        injection h5 with h6
        exact h6.symm
      subst haOpt2
      rcases DM.bind_trace_cases h4 with h5 | ⟨u, hu, h5⟩
      · unfold startTransition at h5
        rw [if_neg (by
          intro hor
          cases hor with
          | inl hl => exact h1 hl
          | inr hr => exact h2 hr)] at h5
        rw [if_neg h3] at h5
        exact absurd h5 (List.not_mem_nil _)
      · exact traceAll_startTailNoneP w d fuel (inertEntry d)
          (fun _ => trivial) (fun _ => trivial) _ e h5

theorem start_saved_entries (w : World) (d : DriverCfg) (fuel n : Nat)
    (hs : (GetState w d n).1 = Except.ok VMState.saved) :
    ∀ e ∈ (Start w d fuel n).2.2, savedEntry d e := by
  intro e he
  unfold Start at he
  rcases DM.bind_trace_cases he with h | ⟨s, hs2, h⟩
  · rw [getState_trace, List.mem_singleton] at h
    subst h
    exact Or.inl rfl
  · have hsp : s = VMState.saved := by
      rw [hs] at hs2
      injection hs2 with h4
      exact h4.symm
    subst hsp
    rw [if_neg (by decide : ¬ (VMState.saved = VMState.stopped))] at h
    rcases DM.bind_trace_cases h with h2 | ⟨aOpt, haOpt, h2⟩
    · exact absurd h2 (List.not_mem_nil _)
    · have haOpt2 : aOpt = Option.none := by
        have h5 : (Except.ok (Option.none) :
            Except GoErr (Option HostOnlyNetwork)) = Except.ok aOpt := haOpt
        injection h5 with h6
        exact h6.symm
      subst haOpt2
      rcases DM.bind_trace_cases h2 with h3 | ⟨u, hu, h3⟩
      · exact traceAll_transition_saved w d _ e h3
      · exact traceAll_startTailNoneP w d fuel (savedEntry d)
          (fun _ => trivial) (fun _ => trivial) _ e h3
theorem DM.wrapErr_trace (m : String) (x : DM α) (n : Nat) :
    (DM.wrapErr m x n).2.2 = (x n).2.2 := by
  rw [DM.wrapErr_eq]

theorem DM.wrapErr_fst_ok {m : String} {x : DM α} {n : Nat} {a : α}
    (h : (DM.wrapErr m x n).1 = Except.ok a) : (x n).1 = Except.ok a := by
  rw [DM.wrapErr_eq] at h
  cases hx : (x n).1 with
  | ok b => rw [hx] at h; exact h
  | error e => rw [hx] at h; exact Except.noConfusion h

theorem vbmRun_self_mem (w : World) (args : List String) (n : Nat) :
    Entry.cmd n args ∈ (vbmRun w args n).2.2 := by
  rw [vbmRun_trace]
  exact List.mem_singleton.mpr rfl

theorem getOrCreateRun_self_mem (w : World) (ip mask : IPv4) (n : Nat) :
    Entry.getOrCreate n ip mask ∈ (getOrCreateRun w ip mask n).2.2 := by
  rw [getOrCreateRun_trace]
  exact List.mem_singleton.mpr rfl

theorem addDHCPRun_self_mem (w : World) (nm : String) (cfg : DhcpServer)
    (n : Nat) : Entry.addDHCP n nm cfg ∈ (addDHCPRun w nm cfg n).2.2 := by
  rw [addDHCPRun_trace]
  exact List.mem_singleton.mpr rfl

theorem spf_installs_rule (w : World) (d : DriverCfg) (dp : Int) (m : Nat)
    (p : Int)
    (hok : (setPortForwarding w d 1 "ssh" "tcp" 22 dp m).1 = Except.ok p) :
    ∃ i r, Entry.cmd i ["modifyvm", d.machineName, natpfFlag 1, r] ∈
      (setPortForwarding w d 1 "ssh" "tcp" 22 dp m).2.2 := by
  have hok2 := hok
  unfold setPortForwarding at hok2
  rcases DM.bind_fst_ok hok2 with ⟨p2, hport, h3⟩
  rcases DM.bind_fst_ok h3 with ⟨u2, hdisc, h4⟩
  refine ⟨(getAvailableTCPPort w dp m).2.1 + 1,
    natpfRule "ssh" "tcp" p2 22, ?_⟩
  apply DM.bind_mem_right hport
  apply DM.bind_mem_right hdisc
  apply DM.bind_mem_left
  exact vbmRun_self_mem w _ _

theorem transition_ok_installs (w : World) (d : DriverCfg) (s : VMState)
    (hs : s = VMState.stopped ∨ s = VMState.saved) (m : Nat) (u : Unit)
    (htrans : (startTransition w d s m).1 = Except.ok u) :
    (∃ i r, Entry.cmd i ["modifyvm", d.machineName, natpfFlag 1, r] ∈
      (startTransition w d s m).2.2) ∧
    (∃ i, Entry.cmd i ["startvm", d.machineName, "--type", "headless"] ∈
      (startTransition w d s m).2.2) := by
  unfold startTransition at htrans ⊢
  rw [if_pos hs] at htrans ⊢
  rcases DM.bind_fst_ok htrans with ⟨p, hspf, hboot⟩
  constructor
  · obtain ⟨i, r, hm⟩ := spf_installs_rule w d d.sshPort m p hspf
    exact ⟨i, r, DM.bind_mem_left hm⟩
  · refine ⟨(setPortForwarding w d 1 "ssh" "tcp" 22 d.sshPort m).2.1, ?_⟩
    apply DM.bind_mem_right hspf
    rw [DM.wrapErr_trace]
    exact vbmRun_self_mem w _ _

theorem setup_ok_provisions (w : World) (d : DriverCfg) (n : Nat)
    (adapter : HostOnlyNetwork)
    (hok : (setupHostOnlyNetwork w d n).1 = Except.ok adapter) :
    (∃ i ip mask, Entry.getOrCreate i ip mask ∈
      (setupHostOnlyNetwork w d n).2.2) ∧
    (∃ i nm cfg, Entry.addDHCP i nm cfg ∈
      (setupHostOnlyNetwork w d n).2.2) := by
  unfold setupHostOnlyNetwork at hok ⊢
  rcases hp : parseAndValidateCIDR (effectiveCIDR d) with e0 | ipNet
  · rw [hp] at hok
    exact Except.noConfusion hok
  · rw [hp] at hok
    constructor
    · refine ⟨n, ipNet.1, ipNet.2.mask, ?_⟩
      apply DM.bind_mem_left
      exact getOrCreateRun_self_mem w _ _ n
    · rcases DM.bind_fst_ok hok with ⟨adapter2, hgoc, h2⟩
      rcases DM.bind_fst_ok h2 with ⟨u, horph, h3⟩
      rcases DM.bind_fst_ok h3 with ⟨dh, hrand, h4⟩
      refine ⟨(getRandomIPinSubnet w ipNet.1 (n + 2)).2.1, adapter2.name,
        dhcpConfigFor ipNet.2 dh, ?_⟩
      apply DM.bind_mem_right hgoc
      apply DM.bind_mem_right horph
      apply DM.bind_mem_right hrand
      apply DM.bind_mem_left
      exact addDHCPRun_self_mem w _ _ _

theorem start_saved_installs (w : World) (d : DriverCfg) (fuel n : Nat)
    (hs : (GetState w d n).1 = Except.ok VMState.saved) (a : Unit)
    (hok : (Start w d fuel n).1 = Except.ok a) :
    (∃ i r, Entry.cmd i ["modifyvm", d.machineName, natpfFlag 1, r] ∈
      (Start w d fuel n).2.2) ∧
    (∃ i, Entry.cmd i ["startvm", d.machineName, "--type", "headless"] ∈
      (Start w d fuel n).2.2) := by
  unfold Start at hok ⊢
  rcases DM.bind_fst_ok hok with ⟨s, hs2, hrest⟩
  have hsp : s = VMState.saved := by
    rw [hs] at hs2
    injection hs2 with h4
    exact h4.symm
  subst hsp
  rw [if_neg (by decide : ¬ (VMState.saved = VMState.stopped))] at hrest
  rcases DM.bind_fst_ok hrest with ⟨aOpt, haOpt, h2⟩
  rcases DM.bind_fst_ok h2 with ⟨u, htrans, htail⟩
  have hi := transition_ok_installs w d VMState.saved (Or.inr rfl) _ u htrans
  constructor
  · obtain ⟨i, r, hm⟩ := hi.1
    refine ⟨i, r, ?_⟩
    refine DM.bind_mem_right hs2 ?_
    rw [if_neg (by decide : ¬ (VMState.saved = VMState.stopped))]
    exact DM.bind_mem_right haOpt (DM.bind_mem_left hm)
  · obtain ⟨i, hm⟩ := hi.2
    refine ⟨i, ?_⟩
    refine DM.bind_mem_right hs2 ?_
    rw [if_neg (by decide : ¬ (VMState.saved = VMState.stopped))]
    exact DM.bind_mem_right haOpt (DM.bind_mem_left hm)

theorem start_stopped_provisions (w : World) (d : DriverCfg) (fuel n : Nat)
    (hs : (GetState w d n).1 = Except.ok VMState.stopped) (a : Unit)
    (hok : (Start w d fuel n).1 = Except.ok a) :
    (∃ i ip mask, Entry.getOrCreate i ip mask ∈ (Start w d fuel n).2.2) ∧
    (∃ i nm cfg, Entry.addDHCP i nm cfg ∈ (Start w d fuel n).2.2) ∧
    (∃ i r, Entry.cmd i ["modifyvm", d.machineName, natpfFlag 1, r] ∈
      (Start w d fuel n).2.2) ∧
    (∃ i, Entry.cmd i ["startvm", d.machineName, "--type", "headless"] ∈
      (Start w d fuel n).2.2) := by
  unfold Start at hok ⊢
  rcases DM.bind_fst_ok hok with ⟨s, hs2, hrest⟩
  have hsp : s = VMState.stopped := by
    rw [hs] at hs2
    injection hs2 with h4
    exact h4.symm
  subst hsp
  rw [if_pos rfl] at hrest
  rcases DM.bind_fst_ok hrest with ⟨aOpt, haOpt, h2⟩
  rcases DM.bind_fst_ok h2 with ⟨u, htrans, htail⟩
  have haOpt3 := haOpt
  rcases DM.bind_fst_ok haOpt3 with ⟨adapter, hsetupw, hpure⟩
  have hsetup := DM.wrapErr_fst_ok hsetupw
  have hprov := setup_ok_provisions w d _ adapter hsetup
  have hinst := transition_ok_installs w d VMState.stopped (Or.inl rfl) _ u
    htrans
  have tr1 : ∀ e, e ∈ (setupHostOnlyNetwork w d ((GetState w d n).2.1)).2.2 →
      e ∈ ((DM.bind (GetState w d) fun s =>
        DM.bind (if s = VMState.stopped then
          DM.bind (DM.wrapErr
            "Error setting up host only network on machine start: "
            (setupHostOnlyNetwork w d)) fun a2 => DM.pure (some a2)
        else DM.pure Option.none) fun adapterOpt =>
        DM.bind (startTransition w d s) fun _ =>
        startTail w d fuel adapterOpt) n).2.2 := by
    intro e hm
    refine DM.bind_mem_right hs2 ?_
    rw [if_pos rfl]
    apply DM.bind_mem_left
    apply DM.bind_mem_left
    rw [DM.wrapErr_trace]
    exact hm
  have tr2 : ∀ e, e ∈ (startTransition w d VMState.stopped
      ((DM.bind (DM.wrapErr
        "Error setting up host only network on machine start: "
        (setupHostOnlyNetwork w d)) (fun a2 => DM.pure (some a2))
        ((GetState w d n).2.1)).2.1)).2.2 →
      e ∈ ((DM.bind (GetState w d) fun s =>
        DM.bind (if s = VMState.stopped then
          DM.bind (DM.wrapErr
            "Error setting up host only network on machine start: "
            (setupHostOnlyNetwork w d)) fun a2 => DM.pure (some a2)
        else DM.pure Option.none) fun adapterOpt =>
        DM.bind (startTransition w d s) fun _ =>
        startTail w d fuel adapterOpt) n).2.2 := by
    intro e hm
    refine DM.bind_mem_right hs2 ?_
    rw [if_pos rfl]
    exact DM.bind_mem_right haOpt (DM.bind_mem_left hm)
  refine ⟨?_, ?_, ?_, ?_⟩
  · obtain ⟨i, ip, mask, hm⟩ := hprov.1
    exact ⟨i, ip, mask, tr1 _ hm⟩
  · obtain ⟨i, nm, cfg, hm⟩ := hprov.2
    exact ⟨i, nm, cfg, tr1 _ hm⟩
  · obtain ⟨i, r, hm⟩ := hinst.1
    exact ⟨i, r, tr2 _ hm⟩
  · obtain ⟨i, hm⟩ := hinst.2
    exact ⟨i, tr2 _ hm⟩
/-! ## Port allocation -/

/-- Tester for socket-probe entries. -/
def isListenEntry : Entry → Bool
  | Entry.listen _ _ => true
  | _ => false

/-- Tester for random-draw entries. -/
def isRandomEntry : Entry → Bool
  | Entry.randomDraw _ _ => true
  | _ => false

theorem portIter_ok_ne_zero (w : World) :
    ∀ (k : Nat) (port : Int) (n : Nat) (p : Int),
      (portIter w k port n).1 = Except.ok p → p ≠ 0 := by
  intro k
  induction k with
  | zero =>
    intro port n p h
    exact Except.noConfusion h
  | succ k ih =>
    intro port n p h
    simp only [portIter] at h
    rcases DM.bind_fst_ok h with ⟨addr, hl, h2⟩
    rcases hat : atoi ((splitN2 addr ':').getD 1 "") with _ | p2
    · rw [hat] at h2
      exact Except.noConfusion h2
    · rw [hat] at h2
      have h3 : ((if p2 ≠ 0 then DM.pure p2
          else DM.bind (sleepRun 1) fun _ => portIter w k 0)
          ((listenRun w port n).2.1)).1 = Except.ok p := h2
      by_cases hz : p2 ≠ 0
      · rw [if_pos hz] at h3
        have h4 : (Except.ok p2 : Except GoErr Int) = Except.ok p := h3
        injection h4 with h5
        subst h5
        exact hz
      · rw [if_neg hz] at h3
        rcases DM.bind_fst_ok h3 with ⟨u, hsl, h4⟩
        exact ih 0 _ p h4

theorem traceCount_listen_portIter (w : World) :
    ∀ (k : Nat) (port : Int),
      TraceCount isListenEntry (portIter w k port) k := by
  intro k
  induction k with
  | zero =>
    intro port n
    simp [portIter, DM.fail]
  | succ k ih =>
    intro port n
    have h1 : TraceCount isListenEntry (listenRun w port) 1 :=
      TraceCount.one_single _ _ (listenRun_trace w port)
    have hf : ∀ addr, TraceCount isListenEntry
        ((fun addr => match atoi ((splitN2 addr ':').getD 1 "") with
          | Option.none => DM.fail GoErr.atoiFailed
          | some p =>
            if p ≠ 0 then DM.pure p
            else DM.bind (sleepRun 1) fun _ => portIter w k 0) addr) k := by
      intro addr
      rcases hat : atoi ((splitN2 addr ':').getD 1 "") with _ | p
      · simp only [hat]
        exact (TraceCount.zero_of_all (TraceAll.fail _)).mono_le (Nat.zero_le k)
      · simp only [hat]
        by_cases hz : p ≠ 0
        · rw [if_pos hz]
          exact (TraceCount.zero_of_all (TraceAll.pure _)).mono_le (Nat.zero_le k)
        · rw [if_neg hz]
          apply TraceCount.bind0
          · exact TraceCount.zero_of_all
              (TraceAll.single_all _ _ (sleepRun_trace 1) (fun _ => rfl))
          · intro u
            exact ih 0
    have h := (TraceCount.bind_count h1 hf) n
    have h2 : (portIter w (k + 1) port n).2.2.countP isListenEntry ≤ 1 + k := h
    omega

theorem portIter_listen_hints (w : World) :
    ∀ (k : Nat) (port : Int) (n : Nat) (i : Nat) (p2 : Int),
      Entry.listen i p2 ∈ (portIter w k port n).2.2 →
      p2 = port ∨ p2 = 0 := by
  intro k
  induction k with
  | zero =>
    intro port n i p2 h
    exact absurd h (List.not_mem_nil _)
  | succ k ih =>
    intro port n i p2 h
    simp only [portIter] at h
    rcases DM.bind_trace_cases h with h1 | ⟨addr, haddr, h1⟩
    · rw [listenRun_trace, List.mem_singleton] at h1
      injection h1 with h2 h3
      exact Or.inl h3
    · rcases hat : atoi ((splitN2 addr ':').getD 1 "") with _ | p
      · rw [hat] at h1
        exact absurd h1 (List.not_mem_nil _)
      · rw [hat] at h1
        have h2 : Entry.listen i p2 ∈
            ((if p ≠ 0 then DM.pure p
              else DM.bind (sleepRun 1) fun _ => portIter w k 0)
              ((listenRun w port n).2.1)).2.2 := h1
        by_cases hz : p ≠ 0
        · rw [if_pos hz] at h2
          exact absurd h2 (List.not_mem_nil _)
        · rw [if_neg hz] at h2
          rcases DM.bind_trace_cases h2 with h3 | ⟨u, hu, h3⟩
          · rw [sleepRun_trace, List.mem_singleton] at h3
            exact Entry.noConfusion h3
          · rcases ih 0 _ _ _ h3 with h4 | h4
            · exact Or.inr h4
            · exact Or.inr h4

theorem getPort_listen_error (w : World) (port : Int) (n : Nat) (e : GoErr)
    (hw : w.listenRes n = Except.error e) :
    getAvailableTCPPort w port n =
      (Except.error e, n + 1, [Entry.listen n port]) := by
  show portIter w 11 port n = _
  simp only [portIter]
  rw [DM.bind_eq]
  simp [listenRun, hw]

/-! ## Random DHCP address selection -/

theorem randomLoop_ok_shape (w : World) (base : IPv4)
    (hb : ∀ j, w.randomVal j < 25) :
    ∀ (k n : Nat) (ip : IPv4),
      (randomLoop w base k n).1 = Except.ok (some ip) →
      ip.o0 = base.o0 ∧ ip.o1 = base.o1 ∧ ip.o2 = base.o2 ∧
        ip.o3 < 25 ∧ ip.o3 ≠ base.o3 := by
  intro k
  induction k with
  | zero =>
    intro n ip h
    have h2 : (Except.ok (Option.none) : Except GoErr (Option IPv4)) =
        Except.ok (some ip) := h
    injection h2 with h3
    exact Option.noConfusion h3
  | succ k ih =>
    intro n ip h
    simp only [randomLoop] at h
    rcases DM.bind_fst_ok h with ⟨m, hr, h2⟩
    have hm : m = w.randomVal n := by
      have h4 : (Except.ok (w.randomVal n) : Except GoErr Nat) =
          Except.ok m := hr
      injection h4 with h5
      exact h5.symm
    subst hm
    have hmod : w.randomVal n % 256 = w.randomVal n :=
      Nat.mod_eq_of_lt (Nat.lt_trans (hb n) (by omega))
    have h3 : ((if w.randomVal n % 256 ≠ base.o3 then
        DM.pure (some ⟨base.o0, base.o1, base.o2, w.randomVal n % 256⟩)
        else randomLoop w base k)
        ((randomRun w 25 n).2.1)).1 = Except.ok (some ip) := h2
    by_cases hc : w.randomVal n % 256 ≠ base.o3
    · rw [if_pos hc] at h3
      have h4 : (Except.ok
          (some (⟨base.o0, base.o1, base.o2, w.randomVal n % 256⟩ : IPv4)) :
          Except GoErr (Option IPv4)) = Except.ok (some ip) := h3
      injection h4 with h5
      injection h5 with h6
      subst h6
      refine ⟨rfl, rfl, rfl, ?_, ?_⟩
      · rw [hmod]
        exact hb n
      · exact hc
    · rw [if_neg hc] at h3
      exact ih _ ip h3

theorem getRandomIP_ok_shape (w : World) (base : IPv4)
    (hb : ∀ j, w.randomVal j < 25) (n : Nat) (ip : IPv4)
    (h : (getRandomIPinSubnet w base n).1 = Except.ok ip) :
    ip.o0 = base.o0 ∧ ip.o1 = base.o1 ∧ ip.o2 = base.o2 ∧
      ip.o3 < 25 ∧ ip.o3 ≠ base.o3 := by
  unfold getRandomIPinSubnet at h
  rcases DM.bind_fst_ok h with ⟨r, hloop, h2⟩
  cases r with
  | none => exact Except.noConfusion h2
  | some ip2 =>
    have h3 : (Except.ok ip2 : Except GoErr IPv4) = Except.ok ip := h2
    injection h3 with h4
    subst h4
    exact randomLoop_ok_shape w base hb 5 n ip2 hloop

theorem traceCount_random_loop (w : World) (base : IPv4) :
    ∀ (k : Nat), TraceCount isRandomEntry (randomLoop w base k) k := by
  intro k
  induction k with
  | zero =>
    intro n
    simp [randomLoop, DM.pure]
  | succ k ih =>
    intro n
    simp only [randomLoop]
    have h1 : TraceCount isRandomEntry (randomRun w 25) 1 :=
      TraceCount.one_single _ _ (randomRun_trace w 25)
    have hf : ∀ m, TraceCount isRandomEntry
        ((fun m => if m % 256 ≠ base.o3 then
          DM.pure (some ⟨base.o0, base.o1, base.o2, m % 256⟩)
          else randomLoop w base k) m) k := by
      intro m
      by_cases hc : m % 256 ≠ base.o3
      · simp only [if_pos hc]
        exact (TraceCount.zero_of_all (TraceAll.pure _)).mono_le (Nat.zero_le k)
      · simp only [if_neg hc]
        exact ih
    have h := (TraceCount.bind_count h1 hf) n
    have h2 : ((DM.bind (randomRun w 25) fun m =>
        if m % 256 ≠ base.o3 then
          DM.pure (some ⟨base.o0, base.o1, base.o2, m % 256⟩)
        else randomLoop w base k) n).2.2.countP isRandomEntry ≤ 1 + k := h
    omega

theorem traceCount_random_getRandomIP (w : World) (base : IPv4) :
    TraceCount isRandomEntry (getRandomIPinSubnet w base) 5 := by
  unfold getRandomIPinSubnet
  apply TraceCount.bindR (traceCount_random_loop w base 5)
  intro r
  cases r with
  | some ip => exact TraceCount.zero_of_all (TraceAll.pure _)
  | none => exact TraceCount.zero_of_all (TraceAll.fail _)

theorem randomLoop_exhaust (w : World) (base : IPv4) :
    ∀ (k n : Nat), (∀ j, j < k → w.randomVal (n + j) % 256 = base.o3) →
      (randomLoop w base k n).1 = Except.ok Option.none := by
  intro k
  induction k with
  | zero => intro n h; rfl
  | succ k ih =>
    intro n h
    have h0 : w.randomVal n % 256 = base.o3 := by
      have h1 := h 0 (Nat.succ_pos k)
      simpa using h1
    simp only [randomLoop]
    rw [DM.bind_eq]
    have hfst : (randomRun w 25 n).1 = Except.ok (w.randomVal n) := rfl
    rw [hfst]
    simp only
    rw [if_neg (by simp [h0])]
    refine ih (n + 1) ?_
    intro j hj
    have h2 := h (j + 1) (Nat.succ_lt_succ hj)
    have h3 : n + (j + 1) = n + 1 + j := by omega
    rwa [h3] at h2

theorem getRandomIP_exhaust (w : World) (base : IPv4) (n : Nat)
    (h : ∀ j, j < 5 → w.randomVal (n + j) % 256 = base.o3) :
    (getRandomIPinSubnet w base n).1 =
      Except.error GoErr.unableToGenerateRandomIP := by
  unfold getRandomIPinSubnet
  rw [DM.bind_eq]
  rw [randomLoop_exhaust w base 5 n h]
  rfl
/-! ## CIDR parsing and validation -/

theorem parseCIDR_mask (s : String) (ip : IPv4) (net : IPNet)
    (h : parseCIDR s = some (ip, net)) : maskWith ip net.mask = net.ip := by
  unfold parseCIDR at h
  split at h
  · split at h
    · injection h with h2
      injection h2 with hip hnet
      subst hip
      subst hnet
      rfl
    · exact Option.noConfusion h
  · exact Option.noConfusion h

/-! ## DHCP configuration shape -/

theorem setup_addDHCP_shape (w : World) (d : DriverCfg) (n i : Nat)
    (nm : String) (cfg : DhcpServer)
    (he : Entry.addDHCP i nm cfg ∈ (setupHostOnlyNetwork w d n).2.2) :
    ∃ ipNet dhcpAddr,
      parseAndValidateCIDR (effectiveCIDR d) = Except.ok ipNet ∧
      cfg = dhcpConfigFor ipNet.2 dhcpAddr := by
  unfold setupHostOnlyNetwork at he
  rcases hp : parseAndValidateCIDR (effectiveCIDR d) with e0 | ipNet
  · rw [hp] at he
    exact absurd he (List.not_mem_nil _)
  · rw [hp] at he
    rcases DM.bind_trace_cases he with h | ⟨adapter, had, h⟩
    · rw [getOrCreateRun_trace, List.mem_singleton] at h
      exact Entry.noConfusion h
    · rcases DM.bind_trace_cases h with h2 | ⟨u, hu, h2⟩
      · rw [removeOrphansRun_trace, List.mem_singleton] at h2
        exact Entry.noConfusion h2
      · rcases DM.bind_trace_cases h2 with h3 | ⟨dh, hdh, h3⟩
        · exfalso
          have hall := traceAll_getRandomIPP w ipNet.1
            (fun e => ∀ j nm2 cfg2, e ≠ Entry.addDHCP j nm2 cfg2)
            (fun j => fun j2 nm2 cfg2 h4 => Entry.noConfusion h4)
          exact hall _ _ h3 i nm cfg rfl
        · rcases DM.bind_trace_cases h3 with h4 | ⟨u2, hu2, h4⟩
          · rw [addDHCPRun_trace, List.mem_singleton] at h4
            injection h4 with h5 h6 h7
            exact ⟨ipNet, dh, rfl, h7⟩
          · rcases DM.bind_trace_cases h4 with h5 | ⟨u3, hu3, h5⟩
            · rw [vbmRun_trace, List.mem_singleton] at h5
              exact Entry.noConfusion h5
            · exact absurd h5 (List.not_mem_nil _)

/-! ## The CPU clamp of CreateVM -/

theorem createVM_cpus_cmd (w : World) (d : DriverCfg)
    (himp : d.boot2DockerImportVM = "") (n : Nat) (a : Unit)
    (hok : (CreateVM w d n).1 = Except.ok a) :
    ∃ i, Entry.cmd i
      (modifyVMArgs d (clampCPUs d.cpu w.numCPU) d.memory) ∈
      (CreateVM w d n).2.2 := by
  unfold CreateVM at hok ⊢
  rw [if_neg (by simp [himp])] at hok ⊢
  rcases DM.bind_fst_ok hok with ⟨u0, hiso, h2⟩
  rcases DM.bind_fst_ok h2 with ⟨cpuMem, hbranch, h3⟩
  have hcm : cpuMem = (d.cpu, d.memory) := by
    rcases DM.bind_fst_ok hbranch with ⟨u1, hk, hb2⟩
    rcases DM.bind_fst_ok hb2 with ⟨u2, hdk, hb3⟩
    have h4 : (Except.ok (d.cpu, d.memory) : Except GoErr (Int × Int)) =
        Except.ok cpuMem := hb3
    injection h4 with h5
    exact h5.symm
  subst hcm
  rcases DM.bind_fst_ok h3 with ⟨u1, hcreate, h4⟩
  refine ⟨(vbmRun w
      ["createvm", "--basefolder", resolveStorePath d ".",
       "--name", d.machineName, "--register"]
      ((DM.bind (genKeyRun w) fun _ =>
        DM.bind (createDiskRun w) fun _ => DM.pure (d.cpu, d.memory))
        (copyIsoRun w n).2.1).2.1).2.1, ?_⟩
  refine DM.bind_mem_right hiso ?_
  refine DM.bind_mem_right hbranch ?_
  refine DM.bind_mem_right hcreate ?_
  apply DM.bind_mem_left
  exact vbmRun_self_mem w _ _
/-- Decidable equality of results, for evaluating concrete runs. -/
instance instDecEqExcept {e a : Type} [DecidableEq e] [DecidableEq a] :
    DecidableEq (Except e a) := fun x y =>
  match x, y with
  | Except.ok v, Except.ok v2 =>
    match decEq v v2 with
    | isTrue h => isTrue (h ▸ rfl)
    | isFalse h => isFalse (fun he => h (Except.ok.inj he))
  | Except.ok _, Except.error _ => isFalse (fun he => Except.noConfusion he)
  | Except.error _, Except.ok _ => isFalse (fun he => Except.noConfusion he)
  | Except.error v, Except.error v2 =>
    match decEq v v2 with
    | isTrue h => isTrue (h ▸ rfl)
    | isFalse h => isFalse (fun he => h (Except.error.inj he))

/-! ## Concrete worlds and configurations for witnesses -/

/-- A successful CLI invocation with empty output. -/
def okCmd : CmdResult := ⟨true, "", ""⟩

/-- A successful state query reporting a powered-off machine. -/
def stoppedCmd : CmdResult := ⟨true, "VMState=\"poweroff\"", ""⟩

/-- A successful state query reporting a saved machine. -/
def savedCmd : CmdResult := ⟨true, "VMState=\"saved\"", ""⟩

/-- A successful state query reporting a running machine. -/
def runningCmd : CmdResult := ⟨true, "VMState=\"running\"", ""⟩

/-- A failing state query whose stderr carries the machine-not-found
diagnostic of the hypervisor. -/
def goneCmd : CmdResult :=
  ⟨false, "",
   "VBoxManage: error: Could not find a registered machine named default"⟩

/-- The host-only adapter of the default CIDR. -/
def adapter0 : HostOnlyNetwork :=
  ⟨"vboxnet0", ⟨⟨192, 168, 99, 1⟩, ⟨255, 255, 255, 0⟩⟩⟩

/-- Builds a world from the varying oracle answers, with all collaborator
calls succeeding. -/
def mkWorld (exec : Nat → CmdResult)
    (listIfs : Nat → Except GoErr (List HostOnlyNetwork))
    (listen : Nat → Except GoErr String) (rand : Nat → Nat)
    (numCPU : Nat) : World :=
  ⟨exec, listIfs, fun _ => Except.ok adapter0, fun _ => Except.ok (),
   fun _ => Except.ok (), fun _ => Except.ok (), fun _ => Except.ok (),
   fun _ => Except.ok [], listen, rand, fun _ => Except.ok (),
   fun _ => Except.ok (), fun _ => Except.ok (), fun _ => StatResult.ok,
   fun _ => Except.ok "/vm/src.vmdk", fun _ => Except.ok (2, 2048),
   fun _ => Except.ok (), numCPU, "", ""⟩

/-- The default driver configuration of the source constants. -/
def dC : DriverCfg :=
  ⟨"default", "/store", 1, 1024, 20000, "", false, false,
   "192.168.99.1/24", "82540EM", "deny", false, 0⟩

/-- The default configuration with a CPU count below one. -/
def dCPU : DriverCfg :=
  ⟨"default", "/store", 0, 1024, 20000, "", false, false,
   "192.168.99.1/24", "82540EM", "deny", false, 0⟩

/-- The default configuration with the host-only CIDR 10.0.5.2/24, whose
network address is 10.0.5.0. -/
def d10 : DriverCfg :=
  ⟨"default", "/store", 1, 1024, 20000, "", false, false,
   "10.0.5.2/24", "82540EM", "deny", false, 0⟩

/-- A world in which every call succeeds, the machine starts stopped, and
the post-boot adapter list contains the matching adapter. -/
def wAllOk : World :=
  mkWorld (fun i => if i = 0 then stoppedCmd else okCmd)
    (fun _ => Except.ok [adapter0]) (fun _ => Except.ok "127.0.0.1:2022")
    (fun _ => 5) 64

/-- A world in which the machine starts stopped and the post-boot adapter
list is empty, driving Start down the repair path; the state queries of
the embedded Stop report a powered-off machine. -/
def wRepair : World :=
  mkWorld (fun i => if i = 0 ∨ i = 13 ∨ i = 15 then stoppedCmd else okCmd)
    (fun _ => Except.ok []) (fun _ => Except.ok "127.0.0.1:2022")
    (fun _ => 5) 64

/-- A world in which the machine is in the saved state. -/
def wSaved : World :=
  mkWorld (fun i => if i = 0 then savedCmd else okCmd)
    (fun _ => Except.ok [adapter0]) (fun _ => Except.ok "127.0.0.1:2022")
    (fun _ => 5) 64

/-- A world in which the machine is running. -/
def wRun : World :=
  mkWorld (fun i => if i = 0 then runningCmd else okCmd)
    (fun _ => Except.ok [adapter0]) (fun _ => Except.ok "127.0.0.1:2022")
    (fun _ => 5) 64

/-- A world in which every state query reports an unknown machine. -/
def wGone : World :=
  mkWorld (fun _ => goneCmd) (fun _ => Except.ok [adapter0])
    (fun _ => Except.ok "127.0.0.1:2022") (fun _ => 5) 64

/-- A world in which the second CLI invocation fails and all others
succeed. -/
def wPF : World :=
  mkWorld (fun i => if i = 1 then ⟨false, "", "natpf rule not found"⟩
      else okCmd)
    (fun _ => Except.ok [adapter0]) (fun _ => Except.ok "127.0.0.1:2022")
    (fun _ => 5) 64

/-- A world in which binding the requested port fails because the address
is already in use. -/
def wBusy : World :=
  mkWorld (fun _ => okCmd) (fun _ => Except.ok [adapter0])
    (fun _ => Except.error
      (GoErr.cli "listen tcp4 127.0.0.1:4567: bind: address already in use"))
    (fun _ => 5) 64

/-! ## The claims -/

/-- Claim C1: in every run of Start the corruption-repair action (the
adapter IPv4 rewrite) occurs at most once in the trace, the post-boot
adapter validation occurs at most once (no re-validation after the repair
reboot), and any repair implies that the initial state query returned
Stopped and that an adapter-list answer recorded in the trace contained no
adapter matching the IP and mask of the configured CIDR. -/
theorem claim_C1 (w : World) (d : DriverCfg) (fuel n : Nat) :
    ((Start w d fuel n).2.2).countP isSaveEntry ≤ 1 ∧
    ((Start w d fuel n).2.2).countP isListIfsEntry ≤ 1 ∧
    ∀ i a, Entry.saveAdapterIPv4 i a ∈ (Start w d fuel n).2.2 →
      (GetState w d n).1 = Except.ok VMState.stopped ∧
      RepairEvidence w d ((Start w d fuel n).2.2) :=
  ⟨traceCount_save_start w d fuel n, traceCount_listIfs_start w d fuel n,
   fun i a he => start_save_shape w d fuel n i a he⟩

/-- Witness for claim C1: a concrete world that drives Start down the
repair path; the repair action is in the trace, the prior state was
Stopped and the validation evidence holds. -/
theorem claim_C1_witness :
    Entry.saveAdapterIPv4 16 adapter0 ∈ (Start wRepair dC 3 0).2.2 ∧
    (GetState wRepair dC 0).1 = Except.ok VMState.stopped ∧
    RepairEvidence wRepair dC ((Start wRepair dC 3 0).2.2) := by
  have hm : Entry.saveAdapterIPv4 16 adapter0 ∈ (Start wRepair dC 3 0).2.2 :=
    by decide
  exact ⟨hm, (claim_C1 wRepair dC 3 0).2.2 16 adapter0 hm⟩
theorem start_paused_resume (w : World) (d : DriverCfg) (fuel n : Nat)
    (hs : (GetState w d n).1 = Except.ok VMState.paused) :
    Entry.cmd (n + 1)
      ["controlvm", d.machineName, "resume", "--type", "headless"] ∈
      (Start w d fuel n).2.2 := by
  unfold Start
  refine DM.bind_mem_right hs ?_
  rw [if_neg (by decide : ¬ (VMState.paused = VMState.stopped))]
  refine DM.bind_mem_right
    (rfl : ((DM.pure Option.none :
      DM (Option HostOnlyNetwork)) ((GetState w d n).2.1)).1 =
      Except.ok Option.none) ?_
  apply DM.bind_mem_left
  show Entry.cmd (n + 1)
    ["controlvm", d.machineName, "resume", "--type", "headless"] ∈
    [Entry.cmd (n + 1)
      ["controlvm", d.machineName, "resume", "--type", "headless"]]
  exact List.mem_singleton.mpr rfl

/-- Claim C2 (amended): when an embedded driver operation returns success,
every inspected hypervisor invocation recorded in its trace exited
successfully; Remove alone may also succeed when its state query failed
with a stderr matching the machine-not-found diagnostic. The two
invocations whose results the source discards (the natpf delete of
setPortForwarding and the import-VM poweroff of CreateVM) are recorded as
result-discarded entries and are the only such sites. -/
theorem claim_C2 (w : World) (d : DriverCfg) (fuel : Nat)
    (interfaceNum : Nat) (mapName protocol : String)
    (guestPort desiredHostPort port : Int) :
    OkTrace (CmdOkP w) (GetState w d) ∧
    OkTrace (CmdOkP w) (Kill w d) ∧
    OkTrace (CmdOkP w) (Stop w d fuel) ∧
    OkTrace (CmdOkP w) (Restart w d) ∧
    OkTrace (CmdOkP w) (getAvailableTCPPort w port) ∧
    OkTrace (CmdOkP w)
      (setPortForwarding w d interfaceNum mapName protocol guestPort
        desiredHostPort) ∧
    OkTrace (CmdOkP w) (setupHostOnlyNetwork w d) ∧
    OkTrace (CmdOkP w) (CreateVM w d) ∧
    OkTrace (CmdOkP w) (Start w d fuel) ∧
    (∀ n a, (Remove w d fuel n).1 = Except.ok a →
      ∀ e ∈ (Remove w d fuel n).2.2, RemExempt w d e) :=
  ⟨okTrace_getState w d, okTrace_kill w d, okTrace_stop w d fuel,
   okTrace_restart w d, (traceAll_cmdOk_getPort w port).toOkTrace,
   okTrace_setPortForwarding w d interfaceNum mapName protocol guestPort
     desiredHostPort,
   okTrace_setupHostOnly w d, okTrace_createVM w d, okTrace_start w d fuel,
   fun n a ha => remove_trace_exempt w d fuel n a ha⟩

/-- Counterexample for claim C2 as stated: in this world the natpf delete
invocation (the second CLI invocation) exits non-zero, yet
setPortForwarding returns success — a failing hypervisor invocation in an
operation other than Remove whose failure is silently discarded. -/
theorem claim_C2_counterexample :
    (setPortForwarding wPF dC 1 "ssh" "tcp" 22 0 0).1 = Except.ok 2022 ∧
    (wPF.exec 1).ok = false ∧
    Entry.cmdIgnored 1 ["modifyvm", "default", "--natpf1", "delete", "ssh"]
      ∈ (setPortForwarding wPF dC 1 "ssh" "tcp" 22 0 0).2.2 :=
  ⟨by decide, by decide, by decide⟩

/-- Witness for claim C2: the Remove conjunct applied to a world whose
state query reports an unknown machine. -/
theorem claim_C2_witness :
    (Remove wGone dC 1 0).1 = Except.ok () ∧
    (∀ e ∈ (Remove wGone dC 1 0).2.2, RemExempt wGone dC e) := by
  have h := (claim_C2 wGone dC 1 1 "ssh" "tcp" 22 0 0).2.2.2.2.2.2.2.2.2
  exact ⟨by decide, h 0 () (by decide)⟩

/-- Claim C3 (amended): getAvailableTCPPort never returns zero on success
and performs at most eleven socket probes, resetting the port hint to zero
on every retry; a bind failure on the requested port is returned
immediately as that error, with no fallback probe. -/
theorem claim_C3 (w : World) (port : Int) (n : Nat) :
    (∀ p, (getAvailableTCPPort w port n).1 = Except.ok p → p ≠ 0) ∧
    (∀ e, w.listenRes n = Except.error e →
      getAvailableTCPPort w port n =
        (Except.error e, n + 1, [Entry.listen n port])) ∧
    ((getAvailableTCPPort w port n).2.2).countP isListenEntry ≤ 11 ∧
    (∀ i p2, Entry.listen i p2 ∈ (getAvailableTCPPort w port n).2.2 →
      p2 = port ∨ p2 = 0) :=
  ⟨fun p h => portIter_ok_ne_zero w 11 port n p h,
   fun e he => getPort_listen_error w port n e he,
   traceCount_listen_portIter w 11 port n,
   fun i p2 h => portIter_listen_hints w 11 port n i p2 h⟩

/-- Counterexample for claim C3 as stated: the requested port 4567 is
already bound, the probe fails, and getAvailableTCPPort returns the bind
error immediately after a single probe instead of falling back to an
OS-assigned port. -/
theorem claim_C3_counterexample :
    (getAvailableTCPPort wBusy 4567 0).1 = Except.error
      (GoErr.cli "listen tcp4 127.0.0.1:4567: bind: address already in use") ∧
    (getAvailableTCPPort wBusy 4567 0).2.2 = [Entry.listen 0 4567] :=
  ⟨by decide, by decide⟩

/-- Witness for claim C3: a successful allocation in a world whose probe
reports the OS-assigned port 2022, which is nonzero. -/
theorem claim_C3_witness :
    (getAvailableTCPPort wAllOk 0 0).1 = Except.ok 2022 ∧ (2022 : Int) ≠ 0 :=
  ⟨by decide, (claim_C3 wAllOk 0 0).1 2022 (by decide)⟩

/-- Claim C4 (amended): per the initial state query, Start on a paused
machine issues the resume command and records nothing beyond the state
query, the resume, the log read and the IP wait; on a saved machine it
records only the state query, port-forwarding work and the headless boot
(no host-only provisioning), and on success installs the forwarding rule
and boots; on a stopped machine a successful run finds or creates the
adapter, installs the DHCP server, installs the forwarding rule and boots;
in every other state the trace holds no transition command and no
provisioning entry. -/
theorem claim_C4 (w : World) (d : DriverCfg) (fuel n : Nat) :
    ((GetState w d n).1 = Except.ok VMState.paused →
      Entry.cmd (n + 1)
        ["controlvm", d.machineName, "resume", "--type", "headless"] ∈
        (Start w d fuel n).2.2 ∧
      ∀ e ∈ (Start w d fuel n).2.2, pausedEntry d e) ∧
    ((GetState w d n).1 = Except.ok VMState.saved →
      (∀ e ∈ (Start w d fuel n).2.2, savedEntry d e) ∧
      ∀ a, (Start w d fuel n).1 = Except.ok a →
        (∃ i r, Entry.cmd i ["modifyvm", d.machineName, natpfFlag 1, r] ∈
          (Start w d fuel n).2.2) ∧
        (∃ i, Entry.cmd i ["startvm", d.machineName, "--type", "headless"] ∈
          (Start w d fuel n).2.2)) ∧
    ((GetState w d n).1 = Except.ok VMState.stopped →
      ∀ a, (Start w d fuel n).1 = Except.ok a →
        (∃ i ip mask, Entry.getOrCreate i ip mask ∈ (Start w d fuel n).2.2) ∧
        (∃ i nm cfg, Entry.addDHCP i nm cfg ∈ (Start w d fuel n).2.2) ∧
        (∃ i r, Entry.cmd i ["modifyvm", d.machineName, natpfFlag 1, r] ∈
          (Start w d fuel n).2.2) ∧
        (∃ i, Entry.cmd i ["startvm", d.machineName, "--type", "headless"] ∈
          (Start w d fuel n).2.2)) ∧
    (∀ s, (GetState w d n).1 = Except.ok s → s ≠ VMState.stopped →
      s ≠ VMState.saved → s ≠ VMState.paused →
      ∀ e ∈ (Start w d fuel n).2.2, inertEntry d e) := by
  refine ⟨?_, ?_, ?_, ?_⟩
  · intro hs
    exact ⟨start_paused_resume w d fuel n hs,
      start_paused_entries w d fuel n hs⟩
  · intro hs
    exact ⟨start_saved_entries w d fuel n hs,
      fun a ha => start_saved_installs w d fuel n hs a ha⟩
  · intro hs a ha
    exact start_stopped_provisions w d fuel n hs a ha
  · intro s hs h1 h2 h3
    exact start_inert_entries w d fuel n s hs h1 h2 h3

/-- Counterexample for claim C4 as stated: on a machine in the Saved state
Start issues the headless boot command (and installs the port-forwarding
rule), contradicting the claim that every state other than Stopped and
Paused gets no hypervisor transition command and no forwarding rule. -/
theorem claim_C4_counterexample :
    (GetState wSaved dC 0).1 = Except.ok VMState.saved ∧
    Entry.cmd 4 ["startvm", "default", "--type", "headless"] ∈
      (Start wSaved dC 1 0).2.2 ∧
    Entry.cmd 3 ["modifyvm", "default", "--natpf1", "ssh,tcp,127.0.0.1,2022,,22"]
      ∈ (Start wSaved dC 1 0).2.2 :=
  ⟨by decide, by decide, by decide⟩

/-- Witness for claim C4: the saved-machine conjunct applied to a concrete
saved-state world. -/
theorem claim_C4_witness :
    (∀ e ∈ (Start wSaved dC 1 0).2.2, savedEntry dC e) ∧
    (∃ i, Entry.cmd i ["startvm", dC.machineName, "--type", "headless"] ∈
      (Start wSaved dC 1 0).2.2) := by
  have h := (claim_C4 wSaved dC 1 0).2.1 (by decide)
  exact ⟨h.1, (h.2 () (by decide)).2⟩

/-- Claim C5: an unparsable CIDR string is rejected with the invalid-CIDR
error; a parsable one whose host IP equals the network address is rejected
with the network-address-as-host error; otherwise parseAndValidateCIDR
returns the parsed pair, and masking the host IP with the returned mask
reproduces the returned network address. -/
theorem claim_C5 (s : String) :
    (parseCIDR s = Option.none →
      parseAndValidateCIDR s = Except.error GoErr.invalidCIDR) ∧
    (∀ ip net, parseCIDR s = some (ip, net) → ip = net.ip →
      parseAndValidateCIDR s = Except.error GoErr.networkAddrCidr) ∧
    (∀ ip net, parseCIDR s = some (ip, net) → ip ≠ net.ip →
      parseAndValidateCIDR s = Except.ok (ip, net) ∧
        maskWith ip net.mask = net.ip) := by
  refine ⟨?_, ?_, ?_⟩
  · intro h
    unfold parseAndValidateCIDR
    rw [h]
  · intro ip net h heq
    unfold parseAndValidateCIDR
    rw [h]
    show (if ip = net.ip then Except.error GoErr.networkAddrCidr
      else Except.ok (ip, net)) = Except.error GoErr.networkAddrCidr
    rw [if_pos heq]
  · intro ip net h hne
    refine ⟨?_, parseCIDR_mask s ip net h⟩
    unfold parseAndValidateCIDR
    rw [h]
    show (if ip = net.ip then Except.error GoErr.networkAddrCidr
      else Except.ok (ip, net)) = Except.ok (ip, net)
    rw [if_neg hne]

/-- Witness for claim C5: the default CIDR parses to host 192.168.99.1 and
network 192.168.99.0 with the 24-bit mask, and masking reproduces the
network address; the network-address form 10.0.5.0/24 is rejected. -/
theorem claim_C5_witness :
    parseAndValidateCIDR "192.168.99.1/24" =
      Except.ok (⟨192, 168, 99, 1⟩,
        ⟨⟨192, 168, 99, 0⟩, ⟨255, 255, 255, 0⟩⟩) ∧
    maskWith ⟨192, 168, 99, 1⟩ ⟨255, 255, 255, 0⟩ = ⟨192, 168, 99, 0⟩ ∧
    parseAndValidateCIDR "10.0.5.0/24" =
      Except.error GoErr.networkAddrCidr := by
  have h := (claim_C5 "192.168.99.1/24").2.2 ⟨192, 168, 99, 1⟩
    ⟨⟨192, 168, 99, 0⟩, ⟨255, 255, 255, 0⟩⟩ (by decide) (by decide)
  exact ⟨h.1, h.2, (claim_C5 "10.0.5.0/24").2.1 ⟨10, 0, 5, 0⟩
    ⟨⟨10, 0, 5, 0⟩, ⟨255, 255, 255, 0⟩⟩ (by decide) (by decide)⟩

/-- Claim C6: every DHCP server configuration that setupHostOnlyNetwork
installs derives its lease pool from the network address of the validated
CIDR, with the lower bound at host octet 100, the upper bound at host
octet 254, and the enabled flag set. -/
theorem claim_C6 (w : World) (d : DriverCfg) (n i : Nat) (nm : String)
    (cfg : DhcpServer)
    (he : Entry.addDHCP i nm cfg ∈ (setupHostOnlyNetwork w d n).2.2) :
    ∃ network, (∃ ip, parseAndValidateCIDR (effectiveCIDR d) =
        Except.ok (ip, network)) ∧
      cfg.lowerIP = ⟨network.ip.o0, network.ip.o1, network.ip.o2, 100⟩ ∧
      cfg.upperIP = ⟨network.ip.o0, network.ip.o1, network.ip.o2, 254⟩ ∧
      cfg.enabled = true := by
  obtain ⟨ipNet, dh, hp, hcfg⟩ := setup_addDHCP_shape w d n i nm cfg he
  subst hcfg
  refine ⟨ipNet.2, ⟨ipNet.1, ?_⟩, rfl, rfl, rfl⟩
  rw [hp]

/-- Witness for claim C6: with the CIDR 10.0.5.2/24 (network 10.0.5.0) the
installed DHCP configuration has bounds 10.0.5.100 and 10.0.5.254 and is
enabled. -/
theorem claim_C6_witness :
    Entry.addDHCP 3 "vboxnet0"
      (dhcpConfigFor ⟨⟨10, 0, 5, 0⟩, ⟨255, 255, 255, 0⟩⟩ ⟨10, 0, 5, 5⟩) ∈
      (setupHostOnlyNetwork wAllOk d10 0).2.2 ∧
    (dhcpConfigFor ⟨⟨10, 0, 5, 0⟩, ⟨255, 255, 255, 0⟩⟩
      ⟨10, 0, 5, 5⟩).lowerIP = ⟨10, 0, 5, 100⟩ ∧
    (dhcpConfigFor ⟨⟨10, 0, 5, 0⟩, ⟨255, 255, 255, 0⟩⟩
      ⟨10, 0, 5, 5⟩).upperIP = ⟨10, 0, 5, 254⟩ ∧
    (∃ network, (∃ ip, parseAndValidateCIDR (effectiveCIDR d10) =
        Except.ok (ip, network)) ∧
      (dhcpConfigFor ⟨⟨10, 0, 5, 0⟩, ⟨255, 255, 255, 0⟩⟩
        ⟨10, 0, 5, 5⟩).lowerIP =
        ⟨network.ip.o0, network.ip.o1, network.ip.o2, 100⟩ ∧
      (dhcpConfigFor ⟨⟨10, 0, 5, 0⟩, ⟨255, 255, 255, 0⟩⟩
        ⟨10, 0, 5, 5⟩).upperIP =
        ⟨network.ip.o0, network.ip.o1, network.ip.o2, 254⟩ ∧
      (dhcpConfigFor ⟨⟨10, 0, 5, 0⟩, ⟨255, 255, 255, 0⟩⟩
        ⟨10, 0, 5, 5⟩).enabled = true) := by
  have hm : Entry.addDHCP 3 "vboxnet0"
      (dhcpConfigFor ⟨⟨10, 0, 5, 0⟩, ⟨255, 255, 255, 0⟩⟩ ⟨10, 0, 5, 5⟩) ∈
      (setupHostOnlyNetwork wAllOk d10 0).2.2 := by decide
  exact ⟨hm, by decide, by decide, claim_C6 wAllOk d10 0 3 "vboxnet0" _ hm⟩

/-- Claim C7: under the random-source contract that RandomInt 25 yields
values below 25, every address returned by getRandomIPinSubnet keeps the
first three octets of the host IP, has a last octet below 25 that differs
from the host octet, at most five draws are made, and five clashing draws
yield the random-address-exhausted error. -/
theorem claim_C7 (w : World) (base : IPv4) (n : Nat)
    (hb : ∀ j, w.randomVal j < 25) :
    (∀ ip, (getRandomIPinSubnet w base n).1 = Except.ok ip →
      ip.o0 = base.o0 ∧ ip.o1 = base.o1 ∧ ip.o2 = base.o2 ∧
        ip.o3 < 25 ∧ ip.o3 ≠ base.o3) ∧
    ((getRandomIPinSubnet w base n).2.2).countP isRandomEntry ≤ 5 ∧
    ((∀ j, j < 5 → w.randomVal (n + j) = base.o3) →
      (getRandomIPinSubnet w base n).1 =
        Except.error GoErr.unableToGenerateRandomIP) :=
  ⟨fun ip h => getRandomIP_ok_shape w base hb n ip h,
   traceCount_random_getRandomIP w base n,
   fun h => getRandomIP_exhaust w base n (fun j hj => by
     rw [Nat.mod_eq_of_lt (Nat.lt_trans (hb _) (by omega))]
     exact h j hj)⟩

/-- Witness for claim C7: with draws fixed at 5 and host IP 192.168.99.1,
the chosen address is 192.168.99.5, in range and distinct from the host
octet. -/
theorem claim_C7_witness :
    (getRandomIPinSubnet wAllOk ⟨192, 168, 99, 1⟩ 0).1 =
      Except.ok ⟨192, 168, 99, 5⟩ ∧
    (5 : Nat) < 25 ∧ (5 : Nat) ≠ 1 := by
  have h := (claim_C7 wAllOk ⟨192, 168, 99, 1⟩ 0
    (fun _ => (by decide : (5 : Nat) < 25))).1
    ⟨192, 168, 99, 5⟩ (by decide)
  exact ⟨by decide, h.2.2.2.1, h.2.2.2.2⟩

/-- Claim C8: when the state query of Remove fails with a stderr matching
the machine-not-found diagnostic, Remove returns success and its trace is
exactly the one state query — no stop, kill or unregister command. -/
theorem claim_C8 (w : World) (d : DriverCfg) (fuel n : Nat)
    (h1 : (w.exec n).ok = false)
    (h2 : machineNotFoundStderr (w.exec n).stderr = true) :
    (Remove w d fuel n).1 = Except.ok () ∧
    (Remove w d fuel n).2.2 =
      [Entry.cmd n ["showvminfo", d.machineName, "--machinereadable"]] := by
  have hg : GetState w d n =
      (Except.error GoErr.machineNotExist, n + 1,
       [Entry.cmd n ["showvminfo", d.machineName, "--machinereadable"]]) := by
    simp [GetState, h1, h2]
  unfold Remove
  rw [hg]
  exact ⟨rfl, rfl⟩

/-- Witness for claim C8 on a concrete world whose hypervisor does not
know the machine. -/
theorem claim_C8_witness :
    (Remove wGone dC 1 0).1 = Except.ok () ∧
    (Remove wGone dC 1 0).2.2 =
      [Entry.cmd 0 ["showvminfo", "default", "--machinereadable"]] :=
  claim_C8 wGone dC 1 0 (by decide) (by decide)

/-- Claim C9: when the showvminfo invocation succeeds, GetState returns
without error the parse of its stdout; the quoted token running maps to
Running, paused to Paused, saved to Saved, poweroff and aborted to
Stopped, and a missing or unmapped token yields the unknown state. -/
theorem claim_C9 (w : World) (d : DriverCfg) (n : Nat) (out : String)
    (hok : (w.exec n).ok = true) (hout : (w.exec n).stdout = out) :
    (GetState w d n).1 = Except.ok (parseVMState out) ∧
    (firstVMStateToken out = some "running" →
      parseVMState out = VMState.running) ∧
    (firstVMStateToken out = some "paused" →
      parseVMState out = VMState.paused) ∧
    (firstVMStateToken out = some "saved" →
      parseVMState out = VMState.saved) ∧
    (firstVMStateToken out = some "poweroff" →
      parseVMState out = VMState.stopped) ∧
    (firstVMStateToken out = some "aborted" →
      parseVMState out = VMState.stopped) ∧
    (firstVMStateToken out = Option.none →
      parseVMState out = VMState.none) ∧
    (∀ t, firstVMStateToken out = some t → t ≠ "running" → t ≠ "paused" →
      t ≠ "saved" → t ≠ "poweroff" → t ≠ "aborted" →
      parseVMState out = VMState.none) := by
  refine ⟨?_, ?_, ?_, ?_, ?_, ?_, ?_, ?_⟩
  · simp [GetState, hok, hout]
  · intro h
    unfold parseVMState
    rw [h]
    decide
  · intro h
    unfold parseVMState
    rw [h]
    decide
  · intro h
    unfold parseVMState
    rw [h]
    decide
  · intro h
    unfold parseVMState
    rw [h]
    decide
  · intro h
    unfold parseVMState
    rw [h]
    decide
  · intro h
    unfold parseVMState
    rw [h]
    decide
  · intro t h h1 h2 h3 h4 h5
    unfold parseVMState
    rw [h]
    show (if t = "running" then VMState.running
      else if t = "paused" then VMState.paused
      else if t = "saved" then VMState.saved
      else if t = "poweroff" ∨ t = "aborted" then VMState.stopped
      else VMState.none) = VMState.none
    rw [if_neg h1, if_neg h2, if_neg h3,
      if_neg (by intro hor; cases hor with
        | inl hl => exact h4 hl
        | inr hr => exact h5 hr)]

/-- Witness for claim C9: a concrete running-state output parses to
Running without error. -/
theorem claim_C9_witness :
    (GetState wRun dC 0).1 =
      Except.ok (parseVMState "VMState=\"running\"") ∧
    parseVMState "VMState=\"running\"" = VMState.running := by
  have h := claim_C9 wRun dC 0 "VMState=\"running\"" (by decide) (by decide)
  exact ⟨h.1, h.2.1 (by decide)⟩

/-- Claim C10 (amended): in CreateVM without an import VM, the CPU count
passed to the hypervisor is clampCPUs of the configured count and the host
count: a configured count in one to thirty-two passes through, a count
above thirty-two becomes thirty-two, and a count below one becomes the
host count, itself capped at thirty-two. -/
theorem claim_C10 (w : World) (d : DriverCfg) (n : Nat)
    (himp : d.boot2DockerImportVM = "") (a : Unit)
    (hok : (CreateVM w d n).1 = Except.ok a) :
    (∃ i, Entry.cmd i
      (modifyVMArgs d (clampCPUs d.cpu w.numCPU) d.memory) ∈
      (CreateVM w d n).2.2) ∧
    (1 ≤ d.cpu → d.cpu ≤ 32 → clampCPUs d.cpu w.numCPU = d.cpu) ∧
    (d.cpu > 32 → clampCPUs d.cpu w.numCPU = 32) ∧
    (d.cpu < 1 → (w.numCPU : Int) ≤ 32 →
      clampCPUs d.cpu w.numCPU = (w.numCPU : Int)) ∧
    (d.cpu < 1 → (w.numCPU : Int) > 32 → clampCPUs d.cpu w.numCPU = 32) := by
  refine ⟨createVM_cpus_cmd w d himp n a hok, ?_, ?_, ?_, ?_⟩
  · intro h1 h2
    simp only [clampCPUs]
    split_ifs <;> omega
  · intro h1
    simp only [clampCPUs]
    split_ifs <;> omega
  · intro h1 h2
    simp only [clampCPUs]
    split_ifs <;> omega
  · intro h1 h2
    simp only [clampCPUs]
    split_ifs
    omega

/-- Counterexample for claim C10 as stated: with a configured CPU count of
zero and a host with sixty-four CPUs, the modifyvm invocation passes
thirty-two, not the host count sixty-four. -/
theorem claim_C10_counterexample :
    dCPU.cpu < 1 ∧ wAllOk.numCPU = 64 ∧
    Entry.cmd 4 (modifyVMArgs dCPU 32 1024) ∈ (CreateVM wAllOk dCPU 0).2.2 ∧
    "--cpus" ∈ modifyVMArgs dCPU 32 1024 ∧
    "32" ∈ modifyVMArgs dCPU 32 1024 ∧
    "64" ∉ modifyVMArgs dCPU 32 1024 :=
  ⟨by decide, by decide, by decide, by decide, by decide, by decide⟩

/-- Witness for claim C10: the default configuration with one CPU passes
one through unchanged. -/
theorem claim_C10_witness :
    (∃ i, Entry.cmd i
      (modifyVMArgs dC (clampCPUs dC.cpu wAllOk.numCPU) dC.memory) ∈
      (CreateVM wAllOk dC 0).2.2) ∧
    clampCPUs dC.cpu wAllOk.numCPU = 1 := by
  have h := claim_C10 wAllOk dC 0 (by decide) () (by decide)
  exact ⟨h.1, h.2.1 (by decide) (by decide)⟩
end VBoxDriver
